import Mathlib

set_option maxHeartbeats 1000000
set_option maxRecDepth 16000

/-!
Shallow embedding of the photometric calibration and uncertainty-propagation
engine of `src/hostphot/utils.py`, together with theorems settling the frozen
claims about it.  Python floats are modelled as real numbers (with total
division, `x / 0 = 0`); fallible code (header key lookups, dictionary lookups,
raised exceptions, reads of never-assigned locals) is modelled with
`Except PhotError`.  The static survey registry (`config.txt`), the HST
aperture-correction tables and the HST zero-point-error tables are data files
of the repository that are not part of the source file, so they enter the
model as explicit parameters.
-/

namespace HostPhot

/-- Errors raised by the engine.  A failing header access (a Python `KeyError`
on the image header) is modelled as `missingMetadataField` carrying the header
key name; a failing dictionary lookup as `keyError`; reading a local variable
that was never assigned (Python `UnboundLocalError`) as `unboundLocal`; the
explicit `raise Exception` for an unknown survey in the uncertainty model as
`unsupportedSurvey`; a failing `assert` as `assertionError`. -/
inductive PhotError where
  | missingMetadataField (field : String)
  | keyError (key : String)
  | unboundLocal (localName : String)
  | unsupportedSurvey (survey : String)
  | assertionError (msg : String)
  | valueError (msg : String)
  | typeError (msg : String)
  | indexError (msg : String)
  | attributeError (msg : String)
  deriving DecidableEq

/-- An image header: the key-value mapping read by the engine.  Each field
models one header key used by the source; `none` models an absent key.
`cellGain` stands for the key `HIERARCH CELL.GAIN`, `cellReadnoise` for
`HIERARCH CELL.READNOISE` and `oajNoise` for `HIERARCH OAJ QC NCNOISE`. -/
structure Header where
  EXPTIME : Option ℝ := none
  GAIN : Option ℝ := none
  CCDGAIN : Option ℝ := none
  cellGain : Option ℝ := none
  cellReadnoise : Option ℝ := none
  PCTERNOI : Option ℝ := none
  READNOIS : Option ℝ := none
  oajNoise : Option ℝ := none
  INSTRUME : Option String := none
  CHNLNUM : Option ℤ := none
  EFCONV : Option ℝ := none
  BAND : Option ℤ := none
  TEXPOSED : Option ℝ := none
  EXP_TIME : Option ℝ := none
  NEXP : Option ℝ := none
  CAMCOL : Option ℤ := none
  RUN : Option ℤ := none
  MAGZP : Option ℝ := none
  MAGZRR : Option ℝ := none
  ZPTERR : Option ℝ := none
  MAGZPUNC : Option ℝ := none
  APERTURE : Option String := none

/-- Reading a header key: an absent key fails naming the field. -/
def getField {α : Type} (v : Option α) (field : String) : Except PhotError α :=
  match v with
  | some x => .ok x
  | none => .error (.missingMetadataField field)

/-- The zero-point column of a registry record: either the literal marker
`header`, a comma-separated list of per-filter values, or a single value
shared by all filters. -/
inductive ZpSpec where
  | fromHeader
  | values (zps : List ℝ)
  | same (zp : ℝ)

/-- Modelled from the spec: one record of the static configuration file
(`config.txt`, not part of the source file), with columns
`survey, filters (comma-separated), zp, pixel_scale (comma-separated floats)`.
The comma-splitting of the `filters` and `pixel_scale` columns is modelled by
storing the already-split lists. -/
structure ConfigRow where
  survey : String
  filters : List String
  zp : ZpSpec
  pixel_scale : List ℝ

/-- Model of `check_survey_validity`: asserts that the survey is registered. -/
def check_survey_validity (cfg : List ConfigRow) (survey : String) :
    Except PhotError Unit :=
  if survey ∈ cfg.map (fun row => row.survey) then .ok ()
  else .error (.assertionError survey)

/-- Model of `get_survey_filters`: `none` is returned for `HST` (the filter must be
caller-specified), otherwise the filters column of the survey's record. -/
def get_survey_filters (cfg : List ConfigRow) (survey : String) :
    Except PhotError (Option (List String)) := do
  let _ ← check_survey_validity cfg survey
  if survey = "HST" then pure none
  else
    match cfg.find? (fun row => row.survey == survey) with
    | some row => pure (some row.filters)
    | none => .error (.indexError "no config row")

/-- Result of `survey_zp`: the literal string `header` or a filter-to-value
dictionary. -/
inductive ZpResult where
  | headerMarker
  | dict (entries : List (String × ℝ))

/-- Model of `survey_zp`: resolves the zero-point specification of a survey from the
registry. -/
def survey_zp (cfg : List ConfigRow) (survey : String) :
    Except PhotError ZpResult := do
  let _ ← check_survey_validity cfg survey
  let filtersOpt ← get_survey_filters cfg survey
  match cfg.find? (fun row => row.survey == survey) with
  | none => .error (.indexError "no config row")
  | some row =>
    match row.zp with
    | .fromHeader => pure .headerMarker
    | .values zs =>
      match filtersOpt with
      | some fs => pure (.dict (fs.zip zs))
      | none => .error (.typeError "zip of NoneType")
    | .same z =>
      match filtersOpt with
      | some fs => pure (.dict (fs.map (fun f => (f, z))))
      | none => .error (.typeError "iteration of NoneType")

/-- Model of `get_image_gain`: per-survey gain, read from the header where the survey
requires it, a literal constant otherwise. -/
noncomputable def get_image_gain (cfg : List ConfigRow) (header : Header)
    (survey : String) : Except PhotError ℝ := do
  let _ ← check_survey_validity cfg survey
  if survey = "PS1" then getField header.cellGain "HIERARCH CELL.GAIN"
  else if survey = "DES" then getField header.GAIN "GAIN"
  else if survey = "SDSS" then pure 1.0
  else if survey = "2MASS" then pure 10.0
  else if survey = "LegacySurvey" then pure 1
  else if survey = "Spitzer" then do
    let instrume ← getField header.INSTRUME "INSTRUME"
    if instrume = "IRAC" then do
      let efconv ← getField header.EFCONV "EFCONV"
      pure (3.8 * efconv)
    else if instrume = "MIPS" then pure 5.0
    else .error (.unboundLocal "gain")
  else if survey = "VISTA" then pure 4.19
  else if survey = "HST" then getField header.CCDGAIN "CCDGAIN"
  else if survey = "SkyMapper" then getField header.GAIN "GAIN"
  else if survey = "SPLUS" then getField header.GAIN "GAIN"
  else if survey = "UKIDSS" then getField header.GAIN "GAIN"
  else pure 1.0

/-- The IRAC per-channel read-noise table. -/
def iracReadnoiseTable (channel : ℤ) : Option ℝ :=
  match channel with
  | 1 => some 16.0
  | 2 => some 12.0
  | 3 => some 10.0
  | 4 => some 8.0
  | _ => none

/-- Model of `get_image_readnoise`: per-survey read noise. -/
noncomputable def get_image_readnoise (cfg : List ConfigRow) (header : Header)
    (survey : String) : Except PhotError ℝ := do
  let _ ← check_survey_validity cfg survey
  if survey = "PS1" then getField header.cellReadnoise "HIERARCH CELL.READNOISE"
  else if survey = "DES" then pure 7.0
  else if survey = "SDSS" then pure 0.0
  else if survey = "2MASS" then pure (4.5 * Real.sqrt 6)
  else if survey = "LegacySurvey" then pure 1.0
  else if survey = "Spitzer" then do
    let instrume ← getField header.INSTRUME "INSTRUME"
    if instrume = "IRAC" then do
      let channel ← getField header.CHNLNUM "CHNLNUM"
      match iracReadnoiseTable channel with
      | some rn => pure rn
      | none => .error (.keyError (toString channel))
    else if instrume = "MIPS" then pure 40.0
    else .error (.unboundLocal "readnoise")
  else if survey = "VISTA" then pure 24.0
  else if survey = "HST" then getField header.PCTERNOI "PCTERNOI"
  else if survey = "SkyMapper" then pure 5
  else if survey = "SPLUS" then getField header.oajNoise "HIERARCH OAJ QC NCNOISE"
  else if survey = "UKIDSS" then getField header.READNOIS "READNOIS"
  else pure 0.0

/-- Model of `get_image_exptime`: per-survey exposure time. -/
def get_image_exptime (cfg : List ConfigRow) (header : Header)
    (survey : String) : Except PhotError ℝ := do
  let _ ← check_survey_validity cfg survey
  if survey ∈ ["PS1", "DES", "GALEX", "VISTA", "Spitzer", "HST", "SkyMapper"] then
    getField header.EXPTIME "EXPTIME"
  else if survey = "WISE" then do
    let band ← getField header.BAND "BAND"
    if band = 1 ∨ band = 2 then pure 7.7
    else if band = 3 ∨ band = 4 then pure 8.8
    else .error (.unboundLocal "exptime")
  else if survey = "2MASS" then pure 7.8
  else if survey = "LegacySurvey" then pure 1.0
  else if survey = "SPLUS" then getField header.TEXPOSED "TEXPOSED"
  else if survey = "UKIDSS" then do
    let expTime ← getField header.EXP_TIME "EXP_TIME"
    let nexp ← getField header.NEXP "NEXP"
    pure (expTime * nexp)
  else pure 1.0

/-- Base-10 logarithm, `np.log10` on positive arguments. -/
noncomputable def log10 (x : ℝ) : ℝ := Real.log x / Real.log 10

/-- Python `s.split(sep)` for a single-character separator. -/
def pySplit (s : String) (sep : Char) : List String :=
  (s.data.splitOn sep).map (fun cs => String.mk cs)

/-- Python `s.lower()`. -/
def pyLower (s : String) : String := String.mk (s.data.map Char.toLower)

/-- Substring search over character lists. -/
def containsSub : List Char → List Char → Bool
  | _, [] => true
  | [], _ :: _ => false
  | c :: rest, p :: ps => (p :: ps).isPrefixOf (c :: rest) || containsSub rest (p :: ps)

/-- Python `sub in s` substring test. -/
def containsStr (s sub : String) : Bool := containsSub s.data sub.data

/-- Lookup of an optional filter in a string-keyed dictionary; a miss raises a
`KeyError` carrying the key. -/
def lookupDictF (d : String → Option ℝ) (filt : Option String) :
    Except PhotError ℝ :=
  match filt with
  | none => .error (.keyError "None")
  | some f =>
    match d f with
    | some v => .ok v
    | none => .error (.keyError f)

/-- DES per-filter statistical zero-point uncertainties. -/
def desZpStatUnc (f : String) : Option ℝ :=
  match f with
  | "g" => some 2.6e-3
  | "r" => some 2.9e-3
  | "i" => some 3.4e-3
  | "z" => some 2.5e-3
  | "Y" => some 4.5e-3
  | _ => none

/-- DES per-filter median coadd zero-point statistical uncertainties. -/
def desCoaddZpUnc (f : String) : Option ℝ :=
  match f with
  | "g" => some 5e-3
  | "r" => some 4e-3
  | "i" => some 5e-3
  | "z" => some 6e-3
  | "Y" => some 5e-3
  | _ => none

/-- PS1 per-filter floor systematic errors. -/
def ps1FloorUnc (f : String) : Option ℝ :=
  match f with
  | "g" => some 14e-3
  | "r" => some 14e-3
  | "i" => some 15e-3
  | "z" => some 15e-3
  | "y" => some 18e-3
  | _ => none

/-- SDSS gain table keyed by filter and camera column. -/
def sdssGainTable (f : String) (camcol : ℤ) : Option ℝ :=
  match f with
  | "u" =>
    match camcol with
    | 1 => some 1.62 | 2 => some 1.595 | 3 => some 1.59
    | 4 => some 1.6 | 5 => some 1.47 | 6 => some 2.17 | _ => none
  | "g" =>
    match camcol with
    | 1 => some 3.32 | 2 => some 3.855 | 3 => some 3.845
    | 4 => some 3.995 | 5 => some 4.05 | 6 => some 4.035 | _ => none
  | "r" =>
    match camcol with
    | 1 => some 4.71 | 2 => some 4.6 | 3 => some 4.72
    | 4 => some 4.76 | 5 => some 4.725 | 6 => some 4.895 | _ => none
  | "i" =>
    match camcol with
    | 1 => some 5.165 | 2 => some 6.565 | 3 => some 4.86
    | 4 => some 4.885 | 5 => some 4.64 | 6 => some 4.76 | _ => none
  | "z" =>
    match camcol with
    | 1 => some 4.745 | 2 => some 5.155 | 3 => some 4.885
    | 4 => some 4.775 | 5 => some 3.48 | 6 => some 4.69 | _ => none
  | _ => none

/-- SDSS dark-variance table keyed by filter and camera column. -/
def sdssDarkVarTable (f : String) (camcol : ℤ) : Option ℝ :=
  match f with
  | "u" =>
    match camcol with
    | 1 => some 9.61 | 2 => some 12.6025 | 3 => some 8.7025
    | 4 => some 12.6025 | 5 => some 9.3025 | 6 => some 7.0225 | _ => none
  | "g" =>
    match camcol with
    | 1 => some 15.6025 | 2 => some 1.44 | 3 => some 1.3225
    | 4 => some 1.96 | 5 => some 1.1025 | 6 => some 1.8225 | _ => none
  | "r" =>
    match camcol with
    | 1 => some 1.8225 | 2 => some 1.00 | 3 => some 1.3225
    | 4 => some 1.3225 | 5 => some 0.81 | 6 => some 0.9025 | _ => none
  | "i" =>
    match camcol with
    | 1 => some 7.84 | 2 => some 5.76 | 3 => some 4.6225
    | 4 => some 6.25 | 5 => some 7.84 | 6 => some 5.0625 | _ => none
  | "z" =>
    match camcol with
    | 1 => some 0.81 | 2 => some 1.0 | 3 => some 1.0
    | 4 => some 9.61 | 5 => some 1.8225 | 6 => some 1.21 | _ => none
  | _ => none

/-- WISE ratio of input to output pixel scale per filter. -/
def wisePixScaleTable (f : String) : Option ℝ :=
  match f with
  | "W1" => some 2 | "W2" => some 2 | "W3" => some 2 | "W4" => some 4
  | _ => none

/-- unWISE per-filter zero-point uncertainties. -/
def unwiseZpUncTable (f : String) : Option ℝ :=
  match f with
  | "W1" => some 0.006 | "W2" => some 0.007
  | "W3" => some 0.012 | "W4" => some 0.012
  | _ => none

/-- LegacySurvey DR10 per-filter photometry uncertainties. -/
def legacyUncTable (f : String) : Option ℝ :=
  match f with
  | "g" => some 5.0e-3 | "r" => some 3.9e-3
  | "i" => some 4.3e-3 | "z" => some 5.5e-3
  | _ => none

/-- SPLUS per-filter zero-point uncertainties, with a `1e-3` default for
filters outside the table. -/
def splusZpUnc (filt : Option String) : ℝ :=
  match filt with
  | some "U" => 25e-3
  | some "F395" => 25e-3
  | some "F378" => 15e-3
  | _ => 1e-3

/-- Model of `get_HST_err`: the zero-point magnitude error of an HST filter, derived
from the tabulated `PHOTFLAM` and `ERR_PHOTFLAM` of the instrument's error
file.  `errTable` maps an instrument name and filter name to that pair; the
error files themselves are repository data outside the source file. -/
noncomputable def get_HST_err (errTable : String → String → Option (ℝ × ℝ))
    (filt : Option String) (header : Header) : Except PhotError ℝ := do
  match filt with
  | none => .error (.attributeError "NoneType has no attribute split")
  | some f =>
    let parts := pySplit f '_'
    if 2 ≤ parts.length then
      let filtName := parts.getLastD ""
      let instrume0 := parts.getD (parts.length - 2) ""
      let instrume ←
        if instrume0 = "UVIS" then getField header.APERTURE "APERTURE"
        else pure instrume0
      match errTable instrume filtName with
      | some (photflam, errPhotflam) =>
        pure |2.5 * errPhotflam / (photflam * Real.log 10)|
      | none => .error (.indexError "filter not in error table")
    else .error (.indexError "list index out of range")

/-- The surveys whose uncertainty model adds the generic Poisson plus
read-noise term (the first `if` of `uncertainty_calculation`). -/
def shotNoiseSurveys : List String :=
  ["PS1", "DES", "LegacySurvey", "Spitzer", "VISTA", "SkyMapper", "SPLUS",
   "UKIDSS"]

/-- The body of `uncertainty_calculation` up to (but excluding) its final
conversion line: it returns the combined magnitude error together with the
value of the local variable `flux` at the end of the branch dispatch (the
`Spitzer` branch reassigns it). -/
noncomputable def uncertainty_parts (cfg : List ConfigRow)
    (errTable : String → String → Option (ℝ × ℝ)) (flux flux_err : ℝ)
    (survey : String) (filt : Option String) (ap_area : ℝ) (header : Header)
    (bkg_rms : ℝ) : Except PhotError (ℝ × ℝ) := do
  let exptime ← get_image_exptime cfg header survey
  let gain ← get_image_gain cfg header survey
  let readnoise ← get_image_readnoise cfg header survey
  let mag_err := 1.0857 * flux_err / flux
  let state ←
    if survey ∈ shotNoiseSurveys then do
      let flux ←
        if survey = "Spitzer" then do
          let efconv ← getField header.EFCONV "EFCONV"
          pure (flux / efconv)
        else pure flux
      let extra_err :=
        1.0857 * Real.sqrt (ap_area * readnoise ^ 2 + flux / gain) / flux
      pure (flux, Real.sqrt (mag_err ^ 2 + extra_err ^ 2))
    else pure (flux, mag_err)
  let flux := state.1
  let mag_err := state.2
  let mag_err ←
    if survey = "DES" then do
      let u1 ← lookupDictF desZpStatUnc filt
      let m1 := Real.sqrt (mag_err ^ 2 + u1 ^ 2)
      let u2 ← lookupDictF desCoaddZpUnc filt
      pure (Real.sqrt (m1 ^ 2 + u2 ^ 2))
    else if survey = "PS1" then do
      let floor_err ← lookupDictF ps1FloorUnc filt
      pure (Real.sqrt (mag_err ^ 2 + floor_err ^ 2))
    else if survey = "SDSS" then do
      let camcol ← getField header.CAMCOL "CAMCOL"
      let run ← getField header.RUN "RUN"
      let gain ←
        match filt with
        | none => .error (.keyError "None")
        | some f =>
          match sdssGainTable f camcol with
          | some g => pure g
          | none => .error (.keyError f)
      let dark_variance ←
        match filt with
        | none => .error (.keyError "None")
        | some f =>
          match sdssDarkVarTable f camcol with
          | some dv => pure dv
          | none => .error (.keyError f)
      let gain := if filt = some "u" ∧ camcol = 2 ∧ 1100 < run then 1.825 else gain
      let dark_variance :=
        if filt = some "i" ∧ 1500 < run ∧ camcol = 2 then 6.25 else dark_variance
      let dark_variance :=
        if filt = some "i" ∧ 1500 < run ∧ camcol = 4 then 7.5625 else dark_variance
      let dark_variance :=
        if filt = some "z" ∧ 1500 < run ∧ camcol = 4 then 12.6025 else dark_variance
      let dark_variance :=
        if filt = some "z" ∧ 1500 < run ∧ camcol = 5 then 2.1025 else dark_variance
      let extra_err := 1.0857 * Real.sqrt (dark_variance + flux / gain) / flux
      pure (Real.sqrt (mag_err ^ 2 + extra_err ^ 2))
    else if survey = "GALEX" then
      if filt = some "FUV" then
        let uv_err := -2.5 * (log10 flux -
          log10 (flux +
            Real.sqrt (flux * exptime + (0.050 * flux * exptime) ^ 2) / exptime))
        pure (Real.sqrt (mag_err ^ 2 + uv_err ^ 2))
      else if filt = some "NUV" then
        let uv_err := -2.5 * (log10 flux -
          log10 (flux +
            Real.sqrt (flux * exptime + (0.027 * flux * exptime) ^ 2) / exptime))
        pure (Real.sqrt (mag_err ^ 2 + uv_err ^ 2))
      else .error (.unboundLocal "uv_err")
    else if survey = "2MASS" then
      let n_c := 4 * ap_area
      let snr := flux / Real.sqrt (flux / (gain * 6) +
        n_c * (2 * 1.7 * bkg_rms) ^ 2 + (n_c * 0.024 * bkg_rms) ^ 2)
      pure (1.0857 / snr)
    else if containsStr survey "WISE" then do
      let f_apcor := (10 : ℝ) ^ (-(0.4 : ℝ) * 0.0)
      let fSrc := f_apcor * flux
      let sinSout ← lookupDictF wisePixScaleTable filt
      let fCorr := ap_area * sinSout ^ 2
      let sigma_conf := flux_err
      let sigma_src := Real.sqrt (f_apcor ^ 2 * fCorr *
        (flux_err ^ 2 + 1 * ap_area ^ 2 / ap_area * bkg_rms ^ 2) +
        sigma_conf ^ 2)
      let m := Real.sqrt (1.179 * sigma_src ^ 2 / fSrc ^ 2)
      let zp_unc ←
        if survey = "unWISE" then lookupDictF unwiseZpUncTable filt
        else if survey = "WISE" then getField header.MAGZPUNC "MAGZPUNC"
        else .error (.unboundLocal "zp_unc")
      pure (Real.sqrt (m ^ 2 + zp_unc ^ 2))
    else if survey = "LegacySurvey" then do
      let extra_err ← lookupDictF legacyUncTable filt
      pure (Real.sqrt (mag_err ^ 2 + extra_err ^ 2))
    else if survey = "Spitzer" then pure mag_err
    else if survey = "VISTA" then do
      let zp_unc ← getField header.MAGZRR "MAGZRR"
      pure (Real.sqrt (mag_err ^ 2 + zp_unc ^ 2))
    else if survey = "HST" then do
      let zp_unc ← get_HST_err errTable filt header
      pure (Real.sqrt (mag_err ^ 2 + zp_unc ^ 2))
    else if survey = "SkyMapper" then do
      let zp_unc ← getField header.ZPTERR "ZPTERR"
      pure (Real.sqrt (mag_err ^ 2 + zp_unc ^ 2))
    else if survey = "SPLUS" then
      pure (Real.sqrt (mag_err ^ 2 + splusZpUnc filt ^ 2))
    else if survey = "UKIDSS" then do
      let zp_unc ← getField header.MAGZRR "MAGZRR"
      pure (Real.sqrt (mag_err ^ 2 + zp_unc ^ 2))
    else .error (.unsupportedSurvey survey)
  pure (mag_err, flux)

/-- Model of `uncertainty_calculation`: the combined magnitude error converted back to
flux units, `np.abs(flux * 0.4 * np.log(10) * mag_err)`, where `flux` is the
local variable at the end of the branch dispatch. -/
noncomputable def uncertainty_calculation (cfg : List ConfigRow)
    (errTable : String → String → Option (ℝ × ℝ)) (flux flux_err : ℝ)
    (survey : String) (filt : Option String) (ap_area : ℝ) (header : Header)
    (bkg_rms : ℝ) : Except PhotError ℝ :=
  (uncertainty_parts cfg errTable flux flux_err survey filt ap_area header
    bkg_rms).map (fun state => |state.2 * 0.4 * Real.log 10 * state.1|)

/-- Model of `np.interp` once the query point is at or past the first breakpoint:
walk the remaining breakpoints, linearly interpolating inside a segment and
returning `right` past the last breakpoint. -/
noncomputable def npInterpGo (x right : ℝ) (x0 y0 : ℝ) :
    List (ℝ × ℝ) → ℝ
  | [] => if x0 < x then right else y0
  | (x1, y1) :: rest =>
    if x ≤ x1 then y0 + (y1 - y0) * (x - x0) / (x1 - x0)
    else npInterpGo x right x1 y1 rest

/-- Model of `np.interp(x, xp, fp, left, right)` for an increasing breakpoint list
`pts = xp.zip fp`. -/
noncomputable def npInterp (x : ℝ) (pts : List (ℝ × ℝ)) (left right : ℝ) : ℝ :=
  match pts with
  | [] => 0
  | (x0, y0) :: rest => if x < x0 then left else npInterpGo x right x0 y0 rest

/-- Model of `np.trapz(y, x)`: the trapezoidal rule over consecutive sample pairs. -/
noncomputable def npTrapz : List ℝ → List ℝ → ℝ
  | y0 :: y1 :: ys, x0 :: x1 :: xs =>
    (x1 - x0) * (y0 + y1) / 2 + npTrapz (y1 :: ys) (x1 :: xs)
  | _, _ => 0

/-- Helper for `np.argmin`: fold keeping the index and value of the first
minimum seen so far. -/
noncomputable def minAux : List ℝ → ℕ → ℕ × ℝ → ℕ × ℝ
  | [], _, best => best
  | x :: xs, i, best =>
    if x < best.2 then minAux xs (i + 1) (i, x) else minAux xs (i + 1) best

/-- Model of `np.argmin`: index of the first minimal element (0 on the empty list). -/
noncomputable def idxmin (xs : List ℝ) : ℕ :=
  match xs with
  | [] => 0
  | x :: rest => (minAux rest 1 (0, x)).1

/-- Model of `np.arange(0, 9, 0.01)`: the fine radius grid of 900 points. -/
noncomputable def hstGrid : List ℝ :=
  (List.range 900).map (fun i : ℕ => (i : ℝ) * 0.01)

/-- An HST aperture-correction table: the aperture radii taken from the
`APER#` column headers and, per filter, the encircled-energy fractions.
These tables are repository data files outside the source file. -/
structure ACTable where
  apertures : List ℝ
  rows : String → Option (List ℝ)

/-- Model of `correct_HST_aperture`: resolve the instrument from the filter name (via
the header's `APERTURE` keyword for the ambiguous `UVIS` code), look up the
tabulated encircled-energy curve, interpolate it onto the fine radius grid
and return the value at the grid point closest to the equivalent circular
radius `sqrt(ap_area / pi)`.  `acTables` maps a lower-cased instrument name
to its table, standing for the `*_aper` file selection. -/
noncomputable def correct_HST_aperture (acTables : String → Option ACTable)
    (filt : Option String) (ap_area : ℝ) (header : Header) :
    Except PhotError ℝ := do
  match filt with
  | none => .error (.attributeError "NoneType has no attribute split")
  | some f =>
    let parts := pySplit f '_'
    if 2 ≤ parts.length then
      let filtName := parts.getLastD ""
      let instrume0 := parts.getD (parts.length - 2) ""
      let instrume ←
        if instrume0 = "UVIS" then getField header.APERTURE "APERTURE"
        else pure instrume0
      match acTables (pyLower instrume) with
      | none => .error (.indexError "no aperture correction file")
      | some tbl =>
        match tbl.rows filtName with
        | none => .error (.indexError "filter row not found")
        | some ap_corr =>
          if tbl.apertures.length = ap_corr.length then
            let ap_radius := Real.sqrt (ap_area / Real.pi)
            let pts := tbl.apertures.zip ap_corr
            let leftV := ap_corr.headD 0
            let rightV := ap_corr.getLastD 0
            let cont_ap_corr := hstGrid.map (fun g => npInterp g pts leftV rightV)
            let ind := idxmin (hstGrid.map (fun g => |g - ap_radius|))
            match cont_ap_corr.get? ind with
            | some c => pure c
            | none => .error (.indexError "grid index")
          else .error (.valueError "fp and xp are not of the same length")
    else .error (.indexError "list index out of range")

/-- A numpy floating-point scalar as the engine's magnitude computation sees
it: a finite real, a signed infinity, or NaN. -/
inductive NpVal where
  | finite (x : ℝ)
  | posinf
  | neginf
  | nan

/-- Model of `np.log10` on an arbitrary float: `-inf` at zero, NaN on negatives. -/
noncomputable def npLog10 (x : ℝ) : NpVal :=
  if 0 < x then .finite (Real.log x / Real.log 10)
  else if x = 0 then .neginf
  else .nan

/-- Multiplication of a float by a nonzero real constant. -/
noncomputable def NpVal.constMul (c : ℝ) : NpVal → NpVal
  | .finite x => .finite (c * x)
  | .posinf => if 0 < c then .posinf else if c < 0 then .neginf else .nan
  | .neginf => if 0 < c then .neginf else if c < 0 then .posinf else .nan
  | .nan => .nan

/-- Addition of a finite real constant to a float. -/
noncomputable def NpVal.addConst (c : ℝ) : NpVal → NpVal
  | .finite x => .finite (x + c)
  | .posinf => .posinf
  | .neginf => .neginf
  | .nan => .nan

/-- Finiteness of a float value. -/
def NpVal.IsFinite : NpVal → Prop
  | .finite _ => True
  | _ => False

/-- The result record of `magnitude_calculation`. -/
structure CalResult where
  mag : NpVal
  mag_err : ℝ
  flux : ℝ
  flux_err : ℝ
  zp : ℝ

/-- The surveys whose native flux is in total counts: flux and flux error are
divided by the exposure time after error propagation. -/
def totalCountSurveys : List String := ["PS1", "VISTA", "UKIDSS"]

/-- Model of `magnitude_calculation`: resolve the zero point, apply the survey
pre-corrections (SDSS and unWISE AB offsets, HST aperture correction), run
the error propagation, divide by exposure time for the total-count surveys,
and compute the calibrated magnitude and its error. -/
noncomputable def magnitude_calculation (cfg : List ConfigRow)
    (acTables : String → Option ACTable)
    (errTable : String → String → Option (ℝ × ℝ)) (flux flux_err : ℝ)
    (survey : String) (filt : Option String) (ap_area : ℝ) (header : Header)
    (bkg_rms : ℝ) : Except PhotError CalResult := do
  let zpRes ← survey_zp cfg survey
  let zp ←
    match zpRes with
    | .headerMarker => getField header.MAGZP "MAGZP"
    | .dict entries =>
      match filt with
      | none => .error (.keyError "None")
      | some f =>
        match entries.lookup f with
        | some z => pure z
        | none => .error (.keyError f)
  let state :=
    if survey = "SDSS" then
      let offset : ℝ :=
        if filt = some "u" then -0.04 else if filt = some "z" then 0.02 else 0
      (flux * (10 : ℝ) ^ (-(0.4 : ℝ) * offset),
       flux_err * (10 : ℝ) ^ (-(0.4 : ℝ) * offset))
    else (flux, flux_err)
  let state :=
    if survey = "unWISE" then
      let offset : ℝ :=
        if filt = some "W1" then -4e-3 else if filt = some "W2" then -32e-3 else 0
      (state.1 * (10 : ℝ) ^ (-(0.4 : ℝ) * offset),
       state.2 * (10 : ℝ) ^ (-(0.4 : ℝ) * offset))
    else state
  let flux ←
    if survey = "HST" then do
      let ap_corr ← correct_HST_aperture acTables filt ap_area header
      pure (state.1 * ap_corr)
    else pure state.1
  let flux_err := state.2
  let flux_err ← uncertainty_calculation cfg errTable flux flux_err survey
    filt ap_area header bkg_rms
  let state2 ←
    if survey ∈ totalCountSurveys then do
      let exptime ← get_image_exptime cfg header survey
      pure (flux / exptime, flux_err / exptime)
    else pure (flux, flux_err)
  let flux := state2.1
  let flux_err := state2.2
  pure { mag := ((npLog10 flux).constMul (-2.5)).addConst zp,
         mag_err := |2.5 * flux_err / (flux * Real.log 10)|,
         flux := flux, flux_err := flux_err, zp := zp }

/-- The value returned by `survey_pixel_scale` together with a flag recording
whether the fallback warning was printed on the way. -/
structure PixelScaleResult where
  scale : ℝ
  warned : Bool

/-- Sequential insertion with Python `dict` overwrite semantics. -/
def dictInsert (d : List (String × ℝ)) (k : String) (v : ℝ) :
    List (String × ℝ) :=
  if d.any (fun p => p.1 == k) then
    d.map (fun p => if p.1 == k then (k, v) else p)
  else d ++ [(k, v)]

/-- The dictionary comprehension `{f: ps for f, ps in zip(keys, vals)}`:
insert the zipped pairs in order with overwrite semantics. -/
def dictOfZipFwd (ks : List String) (vs : List ℝ) : List (String × ℝ) :=
  (ks.zip vs).foldl (fun d p => dictInsert d p.1 p.2) []

/-- Model of `survey_pixel_scale`: the pixel scale of a survey; surveys with several
scales resolve them by filter, HST by the characters of the filter string
(Python iterates a string), with an explicit printed fallback (modelled by
the `warned` flag) for non-HST surveys when the filter is not a key. -/
noncomputable def survey_pixel_scale (cfg : List ConfigRow) (survey : String)
    (filt : Option String) : Except PhotError PixelScaleResult := do
  let _ ← check_survey_validity cfg survey
  match cfg.find? (fun row => row.survey == survey) with
  | none => .error (.indexError "no config row")
  | some row =>
    let ps := row.pixel_scale
    if 1 < ps.length then do
      let filters ←
        if survey = "HST" then
          match filt with
          | none => .error (.typeError "zip argument is not iterable")
          | some f => pure (f.data.map (fun c => String.singleton c))
        else do
          match (← get_survey_filters cfg survey) with
          | some fs => pure fs
          | none => .error (.typeError "zip argument is not iterable")
      let d := dictOfZipFwd filters ps
      let hit :=
        match filt with
        | some f => d.lookup f
        | none => none
      match hit with
      | some v => pure ⟨v, false⟩
      | none =>
        if survey = "HST" then
          match filt with
          | none => .error (.typeError "argument of type NoneType")
          | some f =>
            if containsStr f "UVIS" then
              match (d.map (fun p => p.2)).get? 0 with
              | some v => pure ⟨v, false⟩
              | none => .error (.indexError "list index out of range")
            else if containsStr f "IR" then
              match (d.map (fun p => p.2)).get? 1 with
              | some v => pure ⟨v, false⟩
              | none => .error (.indexError "list index out of range")
            else .error (.valueError ("Not a valid HST filter: " ++ f))
        else
          match d with
          | [] => .error (.indexError "list index out of range")
          | (_, v) :: _ => pure ⟨v, true⟩
    else
      match ps with
      | [v] => pure ⟨v, false⟩
      | _ => .error (.valueError "could not convert string to float")

/-- Model of `integrate_filter`: filter-weighted mean flux density of a spectrum.  For
an energy-type response the response is divided by wavelength first; the
response is interpolated onto the spectrum's wavelength grid with zero
padding outside the filter's support; the result is the ratio of the two
trapezoidal integrals. -/
noncomputable def integrate_filter (spectrum_wave spectrum_flux filter_wave
    filter_response : List ℝ) (response_type : String) : ℝ :=
  let filter_response :=
    if response_type = "energy" then
      List.zipWith (fun r w => r / w) filter_response filter_wave
    else filter_response
  let pts := filter_wave.zip filter_response
  let interp_response := spectrum_wave.map (fun w => npInterp w pts 0 0)
  let int1 := npTrapz
    (List.zipWith (fun a b => a * b)
      (List.zipWith (fun a b => a * b) spectrum_flux interp_response)
      spectrum_wave)
    spectrum_wave
  let int2 := npTrapz
    (List.zipWith (fun a b => a * b) filter_response filter_wave) filter_wave
  int1 / int2

/-- The surveys the uncertainty model handles (any other survey reaches the
final `raise`). -/
def supportedSurveys : List String :=
  ["PS1", "DES", "SDSS", "GALEX", "2MASS", "WISE", "unWISE", "LegacySurvey",
   "Spitzer", "VISTA", "HST", "SkyMapper", "SPLUS", "UKIDSS"]

/-- A representative registry used to instantiate concrete statements (the
registry file `config.txt` is repository data outside the source file; the
zero-point and pixel-scale entries below are demonstration values and no
theorem depends on them being the shipped ones). -/
noncomputable def demoConfig : List ConfigRow :=
  [⟨"PS1", ["g", "r", "i", "z", "y"], .same 25.0, [0.25]⟩,
   ⟨"DES", ["g", "r", "i", "z", "Y"], .same 30.0, [0.263]⟩,
   ⟨"SDSS", ["u", "g", "r", "i", "z"], .same 22.5, [0.396]⟩,
   ⟨"GALEX", ["FUV", "NUV"], .values [18.82, 20.08], [1.5]⟩,
   ⟨"2MASS", ["J", "H", "Ks"], .same 20.0, [1.0]⟩,
   ⟨"WISE", ["W1", "W2", "W3", "W4"], .fromHeader, [1.375]⟩,
   ⟨"unWISE", ["W1", "W2", "W3", "W4"], .same 22.5, [2.75]⟩,
   ⟨"LegacySurvey", ["g", "r", "i", "z"], .same 22.5, [0.262]⟩,
   ⟨"Spitzer", ["IRAC1", "IRAC2", "IRAC3", "IRAC4"], .same 21.58,
     [0.6, 0.6, 0.6, 0.6]⟩,
   ⟨"VISTA", ["Z", "Y", "J", "H", "Ks"], .fromHeader, [0.339]⟩,
   ⟨"HST", [], .fromHeader, [0.04, 0.13]⟩,
   ⟨"SkyMapper", ["u", "v", "g", "r", "i", "z"], .fromHeader, [0.5]⟩,
   ⟨"SPLUS", ["U", "F378", "F395", "G", "R", "I", "Z"], .fromHeader, [0.55]⟩,
   ⟨"UKIDSS", ["Z", "Y", "J", "H", "K"], .fromHeader, [0.4]⟩]

/-- A header with every key absent. -/
def emptyHeader : Header := {}

/-- An empty HST zero-point error table (used where the HST branch is not
exercised). -/
def noErrTable : String → String → Option (ℝ × ℝ) := fun _ _ => none

/-- An empty set of HST aperture-correction tables. -/
def noACTables : String → Option ACTable := fun _ => none

/-- A demonstration aperture-correction table with a constant
encircled-energy curve, keyed by the instrument name `acs`. -/
noncomputable def demoACTables : String → Option ACTable := fun s =>
  if s = "acs" then
    some ⟨[0, 10], fun f => if f = "F814W" then some [0.9, 0.9] else none⟩
  else none

end HostPhot

namespace HostPhot

/-- Claim C10: for survey GALEX, any filter other than `FUV` or `NUV` makes
the branch read the never-assigned local `uv_err`, so the call fails with an
unbound-local error. -/
theorem galex_unbound_uv_err (cfg : List ConfigRow)
    (errTable : String → String → Option (ℝ × ℝ))
    (flux flux_err ap_area bkg_rms t : ℝ) (filt : Option String)
    (header : Header) (hmem : "GALEX" ∈ cfg.map (fun row => row.survey))
    (ht : header.EXPTIME = some t) (h1 : filt ≠ some "FUV")
    (h2 : filt ≠ some "NUV") :
    uncertainty_calculation cfg errTable flux flux_err "GALEX" filt ap_area
      header bkg_rms = .error (.unboundLocal "uv_err") := by
  simp [uncertainty_calculation, uncertainty_parts, get_image_exptime,
    get_image_gain, get_image_readnoise, check_survey_validity, hmem, ht,
    getField, shotNoiseSurveys, bind, Except.bind, pure, Except.pure,
    containsStr, h1, h2, Except.map]

/-- Witness for C10 at a concrete input. -/
theorem galex_unbound_uv_err_witness :
    uncertainty_calculation demoConfig noErrTable 50 5 "GALEX" (some "V") 1
      { EXPTIME := some 100 } 1 = .error (.unboundLocal "uv_err") :=
  galex_unbound_uv_err demoConfig noErrTable 50 5 1 1 100 (some "V") _
    (by simp [demoConfig]) rfl (by simp) (by simp)

end HostPhot

namespace HostPhot

/-- Claim C6: header-driven extractors fail naming the missing field when the
key is absent, never returning a default; surveys where the quantity is not
header-driven return their fixed constant. -/
theorem metadata_extractors_contract (header : Header) :
    (header.cellGain = none → get_image_gain demoConfig header "PS1" =
      .error (.missingMetadataField "HIERARCH CELL.GAIN")) ∧
    (header.GAIN = none → get_image_gain demoConfig header "DES" =
      .error (.missingMetadataField "GAIN")) ∧
    (header.CCDGAIN = none → get_image_gain demoConfig header "HST" =
      .error (.missingMetadataField "CCDGAIN")) ∧
    (header.GAIN = none → get_image_gain demoConfig header "SkyMapper" =
      .error (.missingMetadataField "GAIN")) ∧
    (header.GAIN = none → get_image_gain demoConfig header "SPLUS" =
      .error (.missingMetadataField "GAIN")) ∧
    (header.GAIN = none → get_image_gain demoConfig header "UKIDSS" =
      .error (.missingMetadataField "GAIN")) ∧
    (header.INSTRUME = none → get_image_gain demoConfig header "Spitzer" =
      .error (.missingMetadataField "INSTRUME")) ∧
    (header.INSTRUME = some "IRAC" → header.EFCONV = none →
      get_image_gain demoConfig header "Spitzer" =
      .error (.missingMetadataField "EFCONV")) ∧
    (get_image_gain demoConfig header "SDSS" = .ok 1.0) ∧
    (get_image_gain demoConfig header "2MASS" = .ok 10.0) ∧
    (get_image_gain demoConfig header "LegacySurvey" = .ok 1) ∧
    (get_image_gain demoConfig header "VISTA" = .ok 4.19) ∧
    (get_image_gain demoConfig header "GALEX" = .ok 1.0) ∧
    (header.cellReadnoise = none → get_image_readnoise demoConfig header "PS1" =
      .error (.missingMetadataField "HIERARCH CELL.READNOISE")) ∧
    (header.PCTERNOI = none → get_image_readnoise demoConfig header "HST" =
      .error (.missingMetadataField "PCTERNOI")) ∧
    (header.oajNoise = none → get_image_readnoise demoConfig header "SPLUS" =
      .error (.missingMetadataField "HIERARCH OAJ QC NCNOISE")) ∧
    (header.READNOIS = none → get_image_readnoise demoConfig header "UKIDSS" =
      .error (.missingMetadataField "READNOIS")) ∧
    (header.INSTRUME = some "IRAC" → header.CHNLNUM = none →
      get_image_readnoise demoConfig header "Spitzer" =
      .error (.missingMetadataField "CHNLNUM")) ∧
    (get_image_readnoise demoConfig header "DES" = .ok 7.0) ∧
    (get_image_readnoise demoConfig header "SDSS" = .ok 0.0) ∧
    (get_image_readnoise demoConfig header "SkyMapper" = .ok 5) ∧
    (get_image_readnoise demoConfig header "VISTA" = .ok 24.0) ∧
    (get_image_readnoise demoConfig header "GALEX" = .ok 0.0) ∧
    (header.EXPTIME = none → get_image_exptime demoConfig header "PS1" =
      .error (.missingMetadataField "EXPTIME")) ∧
    (header.EXPTIME = none → get_image_exptime demoConfig header "DES" =
      .error (.missingMetadataField "EXPTIME")) ∧
    (header.EXPTIME = none → get_image_exptime demoConfig header "GALEX" =
      .error (.missingMetadataField "EXPTIME")) ∧
    (header.EXPTIME = none → get_image_exptime demoConfig header "VISTA" =
      .error (.missingMetadataField "EXPTIME")) ∧
    (header.EXPTIME = none → get_image_exptime demoConfig header "Spitzer" =
      .error (.missingMetadataField "EXPTIME")) ∧
    (header.EXPTIME = none → get_image_exptime demoConfig header "HST" =
      .error (.missingMetadataField "EXPTIME")) ∧
    (header.EXPTIME = none → get_image_exptime demoConfig header "SkyMapper" =
      .error (.missingMetadataField "EXPTIME")) ∧
    (header.BAND = none → get_image_exptime demoConfig header "WISE" =
      .error (.missingMetadataField "BAND")) ∧
    (header.TEXPOSED = none → get_image_exptime demoConfig header "SPLUS" =
      .error (.missingMetadataField "TEXPOSED")) ∧
    (header.EXP_TIME = none → get_image_exptime demoConfig header "UKIDSS" =
      .error (.missingMetadataField "EXP_TIME")) ∧
    (get_image_exptime demoConfig header "2MASS" = .ok 7.8) ∧
    (get_image_exptime demoConfig header "LegacySurvey" = .ok 1.0) ∧
    (get_image_exptime demoConfig header "SDSS" = .ok 1.0) ∧
    (get_image_exptime demoConfig header "unWISE" = .ok 1.0) := by
  refine ⟨fun h => ?_, fun h => ?_, fun h => ?_, fun h => ?_, fun h => ?_,
    fun h => ?_, fun h => ?_, fun hi h => ?_, ?_, ?_, ?_, ?_, ?_,
    fun h => ?_, fun h => ?_, fun h => ?_, fun h => ?_, fun hi h => ?_,
    ?_, ?_, ?_, ?_, ?_,
    fun h => ?_, fun h => ?_, fun h => ?_, fun h => ?_, fun h => ?_,
    fun h => ?_, fun h => ?_, fun h => ?_, fun h => ?_, fun h => ?_,
    ?_, ?_, ?_, ?_⟩ <;>
  simp_all [get_image_gain, get_image_readnoise, get_image_exptime,
    check_survey_validity, getField, demoConfig, bind, Except.bind, pure,
    Except.pure]

/-- Witness for C6: the empty header makes the PS1 gain extractor fail naming
its key, and the 2MASS exposure time is its fixed constant. -/
theorem metadata_extractors_contract_witness :
    get_image_gain demoConfig emptyHeader "PS1" =
      .error (.missingMetadataField "HIERARCH CELL.GAIN") ∧
    get_image_exptime demoConfig emptyHeader "2MASS" = .ok 7.8 :=
  ⟨(metadata_extractors_contract emptyHeader).1 rfl,
   (metadata_extractors_contract emptyHeader).2.2.2.2.2.2.2.2.2.2.2.2.2.2.2.2.2.2.2.2.2.2.2.2.2.2.2.2.2.2.2.2.2.1⟩

end HostPhot

namespace HostPhot

/-- Claim C3: the SDSS branch resolves gain and dark variance from the
filter/camera-column tables, applies the documented run-dependent overrides,
and combines `1.0857*sqrt(dark_variance + flux/gain)/flux` in quadrature
with the base term; the fixed example strictly exceeds the naive
Poisson-only estimate. -/
theorem sdss_uncertainty_tables_and_example :
    (uncertainty_parts demoConfig noErrTable 1000 31.6 "SDSS" (some "u") 0
      { CAMCOL := some 1, RUN := some 500 } 0 =
      .ok (Real.sqrt ((1.0857 * 31.6 / 1000) ^ 2 +
        (1.0857 * Real.sqrt (9.61 + 1000 / 1.62) / 1000) ^ 2), 1000)) ∧
    (uncertainty_parts demoConfig noErrTable 1000 31.6 "SDSS" (some "u") 0
      { CAMCOL := some 2, RUN := some 1200 } 0 =
      .ok (Real.sqrt ((1.0857 * 31.6 / 1000) ^ 2 +
        (1.0857 * Real.sqrt (12.6025 + 1000 / 1.825) / 1000) ^ 2), 1000)) ∧
    (uncertainty_parts demoConfig noErrTable 1000 31.6 "SDSS" (some "u") 0
      { CAMCOL := some 2, RUN := some 1100 } 0 =
      .ok (Real.sqrt ((1.0857 * 31.6 / 1000) ^ 2 +
        (1.0857 * Real.sqrt (12.6025 + 1000 / 1.595) / 1000) ^ 2), 1000)) ∧
    (uncertainty_parts demoConfig noErrTable 1000 31.6 "SDSS" (some "i") 0
      { CAMCOL := some 4, RUN := some 1600 } 0 =
      .ok (Real.sqrt ((1.0857 * 31.6 / 1000) ^ 2 +
        (1.0857 * Real.sqrt (7.5625 + 1000 / 4.885) / 1000) ^ 2), 1000)) ∧
    (uncertainty_parts demoConfig noErrTable 1000 31.6 "SDSS" (some "z") 0
      { CAMCOL := some 5, RUN := some 1600 } 0 =
      .ok (Real.sqrt ((1.0857 * 31.6 / 1000) ^ 2 +
        (1.0857 * Real.sqrt (2.1025 + 1000 / 3.48) / 1000) ^ 2), 1000)) ∧
    (1.0857 * 31.6 / 1000 <
      Real.sqrt ((1.0857 * 31.6 / 1000) ^ 2 +
        (1.0857 * Real.sqrt (9.61 + 1000 / 1.62) / 1000) ^ 2)) := by
  refine ⟨?_, ?_, ?_, ?_, ?_, ?_⟩
  · simp [uncertainty_parts, get_image_exptime, get_image_gain,
      get_image_readnoise, check_survey_validity, getField, demoConfig,
      shotNoiseSurveys, bind, Except.bind, pure, Except.pure,
      sdssGainTable, sdssDarkVarTable, containsStr]
  · simp [uncertainty_parts, get_image_exptime, get_image_gain,
      get_image_readnoise, check_survey_validity, getField, demoConfig,
      shotNoiseSurveys, bind, Except.bind, pure, Except.pure,
      sdssGainTable, sdssDarkVarTable, containsStr]
  · simp [uncertainty_parts, get_image_exptime, get_image_gain,
      get_image_readnoise, check_survey_validity, getField, demoConfig,
      shotNoiseSurveys, bind, Except.bind, pure, Except.pure,
      sdssGainTable, sdssDarkVarTable, containsStr]
  · simp [uncertainty_parts, get_image_exptime, get_image_gain,
      get_image_readnoise, check_survey_validity, getField, demoConfig,
      shotNoiseSurveys, bind, Except.bind, pure, Except.pure,
      sdssGainTable, sdssDarkVarTable, containsStr]
  · simp [uncertainty_parts, get_image_exptime, get_image_gain,
      get_image_readnoise, check_survey_validity, getField, demoConfig,
      shotNoiseSurveys, bind, Except.bind, pure, Except.pure,
      sdssGainTable, sdssDarkVarTable, containsStr]
  · have hb : (0 : ℝ) ≤ 1.0857 * 31.6 / 1000 := by norm_num
    have he : (0 : ℝ) < 1.0857 * Real.sqrt (9.61 + 1000 / 1.62) / 1000 := by
      positivity
    calc 1.0857 * 31.6 / 1000
        = Real.sqrt ((1.0857 * 31.6 / 1000) ^ 2) := by
          rw [Real.sqrt_sq hb]
      _ < Real.sqrt ((1.0857 * 31.6 / 1000) ^ 2 +
            (1.0857 * Real.sqrt (9.61 + 1000 / 1.62) / 1000) ^ 2) := by
          apply Real.sqrt_lt_sqrt (sq_nonneg _)
          nlinarith [he]

end HostPhot

namespace HostPhot

/-- The trapezoidal rule over an all-zero sample list vanishes. -/
theorem npTrapz_zero (ys xs : List ℝ) (h : ∀ y ∈ ys, y = 0) :
    npTrapz ys xs = 0 := by
  induction ys generalizing xs with
  | nil => cases xs <;> simp [npTrapz]
  | cons y ys ih =>
    cases ys with
    | nil => cases xs <;> simp [npTrapz]
    | cons y1 ys2 =>
      cases xs with
      | nil => simp [npTrapz]
      | cons x0 xs2 =>
        cases xs2 with
        | nil => simp [npTrapz]
        | cons x1 xs3 =>
          have hy : y = 0 := h y (by simp)
          have hy1 : y1 = 0 := h y1 (by simp)
          have hrec := ih (x1 :: xs3) (fun z hz => h z (List.mem_cons_of_mem _ hz))
          rw [show npTrapz (y :: y1 :: ys2) (x0 :: x1 :: xs3) =
              (x1 - x0) * (y + y1) / 2 + npTrapz (y1 :: ys2) (x1 :: xs3) from rfl,
            hrec, hy, hy1]
          ring

/-- Interpolation strictly left of the first breakpoint returns `left`. -/
theorem npInterp_left_of_head (x left right : ℝ) (p : ℝ × ℝ)
    (rest : List (ℝ × ℝ)) (hx : x < p.1) :
    npInterp x (p :: rest) left right = left := by
  obtain ⟨x0, y0⟩ := p
  simp only [npInterp]
  rw [if_pos hx]

/-- The interpolation scan past a point strictly right of every remaining
breakpoint returns the `right` value `0`. -/
theorem npInterpGo_right_of_all (x : ℝ) (x0 y0 : ℝ) (rest : List (ℝ × ℝ))
    (h0 : x0 < x) (h : ∀ p ∈ rest, p.1 < x) :
    npInterpGo x 0 x0 y0 rest = 0 := by
  induction rest generalizing x0 y0 with
  | nil => simp [npInterpGo, h0]
  | cons p ps ih =>
    obtain ⟨x1, y1⟩ := p
    have h1 : x1 < x := h (x1, y1) (by simp)
    simp only [npInterpGo]
    rw [if_neg (not_le.mpr h1)]
    exact ih x1 y1 h1 (fun q hq => h q (List.mem_cons_of_mem _ hq))

/-- Interpolation strictly right of every breakpoint returns the `right`
value `0`. -/
theorem npInterp_right_of_all (x left : ℝ) (pts : List (ℝ × ℝ))
    (h : ∀ p ∈ pts, p.1 < x) : npInterp x pts left 0 = 0 := by
  cases pts with
  | nil => rfl
  | cons p rest =>
    obtain ⟨x0, y0⟩ := p
    have h0 : x0 < x := h (x0, y0) (by simp)
    simp only [npInterp]
    rw [if_neg (not_lt.mpr h0.le)]
    exact npInterpGo_right_of_all x x0 y0 rest h0
      (fun q hq => h q (List.mem_cons_of_mem _ hq))

/-- The elementwise products `flux * response * wavelength` all vanish when
the interpolated response vanishes on every spectrum wavelength. -/
theorem zip_products_zero (sf sw : List ℝ) (f : ℝ → ℝ)
    (hf : ∀ w ∈ sw, f w = 0) :
    ∀ y ∈ List.zipWith (fun a b => a * b)
      (List.zipWith (fun a b => a * b) sf (sw.map f)) sw, y = 0 := by
  induction sw generalizing sf with
  | nil => simp
  | cons w ws ih =>
    cases sf with
    | nil => simp
    | cons a as =>
      intro y hy
      simp only [List.map_cons, List.zipWith_cons_cons, List.mem_cons] at hy
      rcases hy with rfl | hy
      · rw [hf w (by simp)]
        ring
      · exact ih as (fun v hv => hf v (List.mem_cons_of_mem _ hv)) y hy

/-- Counterexample to claim C8 as stated: a spectrum entirely below the
filter's support yields the ordinary number `0`, while the denominator
integral (taken over the filter's own grid) is `150`, not zero. -/
theorem integrate_filter_no_overlap_counterexample :
    integrate_filter [1, 2] [1, 1] [10, 20] [1, 1] "photon" = 0 ∧
    npTrapz (List.zipWith (fun a b => a * b) [1, 1] [(10 : ℝ), 20]) [10, 20] =
      150 := by
  constructor
  · simp only [integrate_filter]
    norm_num [npInterp, npInterpGo, npTrapz,
      show ¬("photon" : String) = "energy" by decide]
  · norm_num [npTrapz]

/-- Claim C8, amended: energy-type responses are first divided by wavelength;
the result is the ratio of the two trapezoidal integrals with the response
interpolated onto the spectrum grid with zero padding; and with no overlap in
either direction — the spectrum entirely below the filter's first wavelength,
or entirely above every filter wavelength — the numerator vanishes so the
result is `0` (the denominator is integrated over the filter's own grid). -/
theorem integrate_filter_amended :
    (∀ sw sf fw fr, integrate_filter sw sf fw fr "energy" =
      integrate_filter sw sf fw (List.zipWith (fun r w => r / w) fr fw)
        "photon") ∧
    (∀ sw sf fw fr rt, rt ≠ "energy" →
      integrate_filter sw sf fw fr rt =
      npTrapz
        (List.zipWith (fun a b => a * b)
          (List.zipWith (fun a b => a * b) sf
            (sw.map (fun w => npInterp w (fw.zip fr) 0 0))) sw) sw /
      npTrapz (List.zipWith (fun a b => a * b) fr fw) fw) ∧
    (∀ sw sf fw fr rt w0 fwr, fw = w0 :: fwr →
      ((∀ w ∈ sw, w < w0) ∨ (∀ w ∈ sw, ∀ x ∈ fw, x < w)) →
      integrate_filter sw sf fw fr rt = 0) := by
  refine ⟨fun sw sf fw fr => ?_, fun sw sf fw fr rt h => ?_,
    fun sw sf fw fr rt w0 fwr hfw hcase => ?_⟩
  · simp [integrate_filter]
  · simp [integrate_filter, h]
  · subst hfw
    simp only [integrate_filter]
    have hall : ∀ fr2 : List ℝ,
        ∀ w ∈ sw, npInterp w ((w0 :: fwr).zip fr2) 0 0 = 0 := by
      intro fr2 w hw
      rcases hcase with hbelow | habove
      · cases fr2 with
        | nil => simp [npInterp]
        | cons a as => exact npInterp_left_of_head _ 0 0 (w0, a) _ (hbelow _ hw)
      · apply npInterp_right_of_all
        intro p hp
        obtain ⟨x1, y1⟩ := p
        exact habove w hw x1 (List.of_mem_zip hp).1
    rw [npTrapz_zero _ _ (zip_products_zero sf sw _ (hall _)), zero_div]

/-- Witness for the amended C8 at concrete non-overlapping inputs, one for
each direction of non-overlap. -/
theorem integrate_filter_amended_witness :
    integrate_filter [1, 2] [1, 1] [30, 40] [1, 1] "energy" = 0 ∧
    integrate_filter [100, 200] [1, 1] [30, 40] [1, 1] "photon" = 0 :=
  ⟨integrate_filter_amended.2.2 [1, 2] [1, 1] [30, 40] [1, 1] "energy" 30 [40]
      rfl (Or.inl (by intro w hw; fin_cases hw <;> norm_num)),
    integrate_filter_amended.2.2 [100, 200] [1, 1] [30, 40] [1, 1] "photon" 30
      [40] rfl
      (Or.inr (by intro w hw x hx; fin_cases hw <;> fin_cases hx <;> norm_num))⟩

/-- The running minimum of `minAux`: its value bounds the initial best value
and every scanned element, and its index/value pair is either the initial
best or a scanned element at its absolute index. -/
theorem minAux_spec (xs : List ℝ) : ∀ (i : ℕ) (best : ℕ × ℝ),
    ((minAux xs i best).2 ≤ best.2 ∧ ∀ x ∈ xs, (minAux xs i best).2 ≤ x) ∧
    (minAux xs i best = best ∨
      ∃ j, ∃ hj : j < xs.length, (minAux xs i best).1 = i + j ∧
        (minAux xs i best).2 = xs.get ⟨j, hj⟩) := by
  induction xs with
  | nil => intro i best; simp [minAux]
  | cons x xs ih =>
    intro i best
    simp only [minAux]
    by_cases hx : x < best.2
    · rw [if_pos hx]
      obtain ⟨⟨h1, h2⟩, h3⟩ := ih (i + 1) (i, x)
      refine ⟨⟨le_trans h1 (le_of_lt hx), ?_⟩, ?_⟩
      · intro z hz
        rcases List.mem_cons.mp hz with rfl | hz
        · exact h1
        · exact h2 z hz
      · right
        rcases h3 with heq | ⟨j, hj, hj1, hj2⟩
        · exact ⟨0, by simp, by rw [heq]; simp, by rw [heq]; simp⟩
        · refine ⟨j + 1, by simpa using hj, by rw [hj1]; omega, ?_⟩
          rw [hj2]
          simp
    · rw [if_neg hx]
      obtain ⟨⟨h1, h2⟩, h3⟩ := ih (i + 1) best
      refine ⟨⟨h1, ?_⟩, ?_⟩
      · intro z hz
        rcases List.mem_cons.mp hz with rfl | hz
        · exact le_trans h1 (not_lt.mp hx)
        · exact h2 z hz
      · rcases h3 with heq | ⟨j, hj, hj1, hj2⟩
        · exact Or.inl heq
        · exact Or.inr ⟨j + 1, by simpa using hj, by rw [hj1]; omega,
            by rw [hj2]; simp⟩

/-- Lemma: `idxmin` returns a valid index of a minimal element (first minimum). -/
theorem idxmin_spec (xs : List ℝ) (hne : xs ≠ []) :
    ∃ h : idxmin xs < xs.length,
      ∀ k (hk : k < xs.length), xs.get ⟨idxmin xs, h⟩ ≤ xs.get ⟨k, hk⟩ := by
  cases xs with
  | nil => exact absurd rfl hne
  | cons x rest =>
    have hidx : idxmin (x :: rest) = (minAux rest 1 (0, x)).1 := rfl
    obtain ⟨⟨h1, h2⟩, h3⟩ := minAux_spec rest 1 (0, x)
    have hval : ∀ k (hk : k < (x :: rest).length),
        (minAux rest 1 (0, x)).2 ≤ (x :: rest).get ⟨k, hk⟩ := by
      intro k hk
      cases k with
      | zero => exact h1
      | succ m =>
        have hm : m < rest.length := by simpa using hk
        exact h2 _ (List.get_mem rest m hm)
    rcases h3 with heq | ⟨j, hj, hj1, hj2⟩
    · have h0 : idxmin (x :: rest) = 0 := by rw [hidx, heq]
      have hv : (minAux rest 1 (0, x)).2 = x := by rw [heq]
      refine ⟨by rw [h0]; simp, ?_⟩
      intro k hk
      have hgoal := hval k hk
      rw [hv] at hgoal
      have hfin : (⟨idxmin (x :: rest), by rw [h0]; simp⟩ :
          Fin (x :: rest).length) = ⟨0, by simp⟩ := Fin.ext h0
      rw [hfin]
      exact hgoal
    · have h1j : idxmin (x :: rest) = j + 1 := by rw [hidx, hj1]; omega
      have hlt : idxmin (x :: rest) < (x :: rest).length := by
        rw [h1j]
        simpa using hj
      refine ⟨hlt, ?_⟩
      intro k hk
      have hfin : (⟨idxmin (x :: rest), hlt⟩ : Fin (x :: rest).length) =
          ⟨j + 1, by simpa using hj⟩ := Fin.ext h1j
      rw [hfin, List.get_cons_succ, ← hj2]
      exact hval k hk

/-- The fine grid has 900 points. -/
theorem hstGrid_length : hstGrid.length = 900 := by
  unfold hstGrid
  rw [List.length_map, List.length_range]

/-- Claim C7: a successful HST aperture correction is the tabulated
encircled-energy curve, linearly interpolated, evaluated at the grid point of
the fine radius grid nearest to the equivalent circular radius
`sqrt(ap_area / pi)`. -/
theorem hst_aperture_nearest_grid_point (acTables : String → Option ACTable)
    (filt : Option String) (ap_area : ℝ) (header : Header) (c : ℝ)
    (hok : correct_HST_aperture acTables filt ap_area header = .ok c) :
    ∃ (instrume : String) (tbl : ACTable) (filtName : String)
      (ap_corr : List ℝ) (i : ℕ) (hi : i < hstGrid.length),
      acTables instrume = some tbl ∧
      tbl.rows filtName = some ap_corr ∧
      c = npInterp (hstGrid.get ⟨i, hi⟩) (tbl.apertures.zip ap_corr)
        (ap_corr.headD 0) (ap_corr.getLastD 0) ∧
      ∀ j (hj : j < hstGrid.length),
        |hstGrid.get ⟨i, hi⟩ - Real.sqrt (ap_area / Real.pi)| ≤
        |hstGrid.get ⟨j, hj⟩ - Real.sqrt (ap_area / Real.pi)| := by
  cases filt with
  | none => simp [correct_HST_aperture] at hok
  | some f =>
    have hcont : ∀ instrume : String,
        (match acTables (pyLower instrume) with
         | none => Except.error (PhotError.indexError "no aperture correction file")
         | some tbl =>
           match tbl.rows ((pySplit f '_').getLastD "") with
           | none => Except.error (PhotError.indexError "filter row not found")
           | some ap_corr =>
             if tbl.apertures.length = ap_corr.length then
               match (List.map (fun g => npInterp g (tbl.apertures.zip ap_corr)
                   (ap_corr.headD 0) (ap_corr.getLastD 0)) hstGrid).get?
                   (idxmin (List.map
                     (fun g => |g - Real.sqrt (ap_area / Real.pi)|) hstGrid)) with
               | some c => pure c
               | none => Except.error (PhotError.indexError "grid index")
             else Except.error
               (PhotError.valueError "fp and xp are not of the same length")) =
          Except.ok c →
        ∃ (instrume : String) (tbl : ACTable) (filtName : String)
          (ap_corr : List ℝ) (i : ℕ) (hi : i < hstGrid.length),
          acTables instrume = some tbl ∧
          tbl.rows filtName = some ap_corr ∧
          c = npInterp (hstGrid.get ⟨i, hi⟩) (tbl.apertures.zip ap_corr)
            (ap_corr.headD 0) (ap_corr.getLastD 0) ∧
          ∀ j (hj : j < hstGrid.length),
            |hstGrid.get ⟨i, hi⟩ - Real.sqrt (ap_area / Real.pi)| ≤
            |hstGrid.get ⟨j, hj⟩ - Real.sqrt (ap_area / Real.pi)| := by
      intro instrume hok2
      set r := Real.sqrt (ap_area / Real.pi) with hr
      set ds := hstGrid.map (fun g => |g - r|) with hds
      split at hok2
      · exact absurd hok2 (by simp)
      · rename_i tbl hacT
        split at hok2
        · exact absurd hok2 (by simp)
        · rename_i ap_corr hrow
          split at hok2
          swap
          · exact absurd hok2 (by simp)
          rename_i hlen
          split at hok2
          swap
          · exact absurd hok2 (by simp)
          rename_i c2 hget2
          have hdsne : ds ≠ [] := by
            intro hnil
            have hl := congrArg List.length hnil
            rw [hds, List.length_map, hstGrid_length] at hl
            simp at hl
          obtain ⟨hlt, hmin⟩ := idxmin_spec ds hdsne
          have hlen2 : ds.length = hstGrid.length := by
            rw [hds, List.length_map]
          have hltG : idxmin ds < hstGrid.length := hlen2 ▸ hlt
          have hget : (hstGrid.map (fun g =>
              npInterp g (tbl.apertures.zip ap_corr) (ap_corr.headD 0)
                (ap_corr.getLastD 0))).get? (idxmin ds) =
              some (npInterp (hstGrid.get ⟨idxmin ds, hltG⟩)
                (tbl.apertures.zip ap_corr) (ap_corr.headD 0)
                (ap_corr.getLastD 0)) := by
            rw [List.get?_map, List.get?_eq_get hltG]
            rfl
          rw [hget] at hget2
          have hc2 : c2 = npInterp (hstGrid.get ⟨idxmin ds, hltG⟩)
              (tbl.apertures.zip ap_corr) (ap_corr.headD 0)
              (ap_corr.getLastD 0) := by
            exact (Option.some.inj hget2).symm
          have hcc : c = c2 := by
            simpa [pure, Except.pure] using hok2.symm
          refine ⟨(pyLower instrume), tbl, (pySplit f '_').getLastD "",
            ap_corr, idxmin ds, hltG, hacT, hrow, by rw [hcc, hc2], ?_⟩
          intro j hj
          have hj2 : j < ds.length := hlen2 ▸ hj
          have hbound := hmin j hj2
          have hgmin : ds.get ⟨idxmin ds, hlt⟩ =
              |hstGrid.get ⟨idxmin ds, hltG⟩ - r| := by
            simp only [hds, List.get_eq_getElem, List.getElem_map]
          have hgj : ds.get ⟨j, hj2⟩ = |hstGrid.get ⟨j, hj⟩ - r| := by
            simp only [hds, List.get_eq_getElem, List.getElem_map]
          rw [hgmin, hgj] at hbound
          exact hbound
    simp only [correct_HST_aperture] at hok
    by_cases h2 : 2 ≤ (pySplit f '_').length
    swap
    · rw [if_neg h2] at hok
      exact absurd hok (by simp)
    rw [if_pos h2] at hok
    by_cases hu : (pySplit f '_').getD ((pySplit f '_').length - 2) "" = "UVIS"
    · rw [if_pos hu] at hok
      simp only [bind, Except.bind] at hok
      cases hA : getField header.APERTURE "APERTURE" with
      | error e => rw [hA] at hok; exact absurd hok (by simp)
      | ok instrume =>
        rw [hA] at hok
        exact hcont instrume hok
    · rw [if_neg hu] at hok
      simp only [bind, Except.bind, pure, Except.pure] at hok
      exact hcont _ hok

/-- The constant demonstration curve interpolates to its constant value. -/
theorem npInterp_demo_const (g : ℝ) :
    npInterp g [((0 : ℝ), (0.9 : ℝ)), (10, 0.9)] 0.9 0.9 = 0.9 := by
  simp only [npInterp, npInterpGo]
  split_ifs <;> ring

/-- Evaluation of the HST aperture correction on the demonstration table. -/
theorem correct_HST_aperture_demo :
    correct_HST_aperture demoACTables (some "HST_ACS_F814W") Real.pi
      emptyHeader = .ok 0.9 := by
  have hsplit : pySplit "HST_ACS_F814W" '_' = ["HST", "ACS", "F814W"] := by
    decide
  have htl : pyLower "ACS" = "acs" := by decide
  have hdsne : hstGrid.map
      (fun g => |g - Real.sqrt (Real.pi / Real.pi)|) ≠ [] := by
    intro hnil
    have hl := congrArg List.length hnil
    rw [List.length_map, hstGrid_length] at hl
    simp at hl
  obtain ⟨hlt, _⟩ := idxmin_spec _ hdsne
  have hltG : idxmin (hstGrid.map
      (fun g => |g - Real.sqrt (Real.pi / Real.pi)|)) < hstGrid.length := by
    rw [← List.length_map hstGrid (fun g => |g - Real.sqrt (Real.pi / Real.pi)|)]
    exact hlt
  simp [correct_HST_aperture, hsplit, htl, demoACTables, emptyHeader,
    bind, Except.bind, pure, Except.pure]
  rw [List.getElem?_eq_getElem hltG]
  simp [npInterp_demo_const]

/-- Witness for C7 at the demonstration table. -/
theorem hst_aperture_nearest_grid_point_witness :
    ∃ (instrume : String) (tbl : ACTable) (filtName : String)
      (ap_corr : List ℝ) (i : ℕ) (hi : i < hstGrid.length),
      demoACTables instrume = some tbl ∧
      tbl.rows filtName = some ap_corr ∧
      (0.9 : ℝ) = npInterp (hstGrid.get ⟨i, hi⟩) (tbl.apertures.zip ap_corr)
        (ap_corr.headD 0) (ap_corr.getLastD 0) ∧
      ∀ j (hj : j < hstGrid.length),
        |hstGrid.get ⟨i, hi⟩ - Real.sqrt (Real.pi / Real.pi)| ≤
        |hstGrid.get ⟨j, hj⟩ - Real.sqrt (Real.pi / Real.pi)| :=
  hst_aperture_nearest_grid_point demoACTables (some "HST_ACS_F814W") Real.pi
    emptyHeader 0.9 correct_HST_aperture_demo

/-- Claim C9, amended: for a survey with several registered pixel scales and
an unrecognized (or absent) filter, `survey_pixel_scale` either fails or
falls back to the first registered scale with the warning flag set — except
for HST, where the internal dictionary is keyed by the characters of the
filter string, so a filter equal to one of those character keys is returned
silently, `UVIS`/`IR` substrings select a scale without warning, and other
filters fail. -/
theorem survey_pixel_scale_amended :
    (∀ (cfg : List ConfigRow) (survey : String) (filt : Option String)
      (row : ConfigRow) (fs : List String),
      cfg.find? (fun r => r.survey == survey) = some row →
      1 < row.pixel_scale.length →
      survey ≠ "HST" →
      get_survey_filters cfg survey = .ok (some fs) →
      (∀ f, filt = some f →
        (dictOfZipFwd fs row.pixel_scale).lookup f = none) →
      (∃ e, survey_pixel_scale cfg survey filt = .error e) ∨
      (∃ k v d, dictOfZipFwd fs row.pixel_scale = (k, v) :: d ∧
        survey_pixel_scale cfg survey filt = .ok ⟨v, true⟩)) ∧
    (∀ (cfg : List ConfigRow) (row : ConfigRow),
      cfg.find? (fun r => r.survey == "HST") = some row →
      1 < row.pixel_scale.length →
      survey_pixel_scale cfg "HST" none =
        .error (.typeError "zip argument is not iterable")) ∧
    (∀ (cfg : List ConfigRow) (row : ConfigRow) (f : String),
      cfg.find? (fun r => r.survey == "HST") = some row →
      1 < row.pixel_scale.length →
      (dictOfZipFwd (f.data.map (fun c => String.singleton c))
        row.pixel_scale).lookup f = none →
      containsStr f "UVIS" = false →
      containsStr f "IR" = false →
      survey_pixel_scale cfg "HST" (some f) =
        .error (.valueError ("Not a valid HST filter: " ++ f))) := by
  refine ⟨?_, ?_, ?_⟩
  · intro cfg survey filt row fs hrow hmulti hneq hfs hmiss
    have hmemrow : row ∈ cfg := List.mem_of_find?_eq_some hrow
    have hsur : row.survey = survey := by simpa using List.find?_some hrow
    have hmem : survey ∈ cfg.map (fun r => r.survey) :=
      List.mem_map.mpr ⟨row, hmemrow, hsur⟩
    cases hd : dictOfZipFwd fs row.pixel_scale with
    | nil =>
      left
      refine ⟨.indexError "list index out of range", ?_⟩
      cases filt with
      | none =>
        simp [survey_pixel_scale, check_survey_validity, hmem, hrow, hmulti,
          hneq, hfs, hd, bind, Except.bind, pure, Except.pure]
      | some f =>
        have hm := hmiss f rfl
        simp [survey_pixel_scale, check_survey_validity, hmem, hrow, hmulti,
          hneq, hfs, hd, hm, bind, Except.bind, pure, Except.pure]
    | cons kv tl =>
      right
      obtain ⟨k, v⟩ := kv
      refine ⟨k, v, tl, rfl, ?_⟩
      cases filt with
      | none =>
        simp [survey_pixel_scale, check_survey_validity, hmem, hrow, hmulti,
          hneq, hfs, hd, bind, Except.bind, pure, Except.pure]
      | some f =>
        have hm := hmiss f rfl
        rw [hd] at hm
        simp [survey_pixel_scale, check_survey_validity, hmem, hrow, hmulti,
          hneq, hfs, hd, hm, bind, Except.bind, pure, Except.pure]
  · intro cfg row hrow hmulti
    have hmemrow : row ∈ cfg := List.mem_of_find?_eq_some hrow
    have hsur : row.survey = "HST" := by simpa using List.find?_some hrow
    have hmem : "HST" ∈ cfg.map (fun r => r.survey) :=
      List.mem_map.mpr ⟨row, hmemrow, hsur⟩
    simp [survey_pixel_scale, check_survey_validity, hmem, hrow, hmulti,
      bind, Except.bind, pure, Except.pure]
  · intro cfg row f hrow hmulti hmiss huvis hir
    have hmemrow : row ∈ cfg := List.mem_of_find?_eq_some hrow
    have hsur : row.survey = "HST" := by simpa using List.find?_some hrow
    have hmem : "HST" ∈ cfg.map (fun r => r.survey) :=
      List.mem_map.mpr ⟨row, hmemrow, hsur⟩
    simp [survey_pixel_scale, check_survey_validity, hmem, hrow, hmulti,
      hmiss, huvis, hir, bind, Except.bind, pure, Except.pure]

/-- Counterexample to claim C9 as stated: HST with the one-character filter
`"W"` (not a valid HST filter) silently returns the first scale: no error
and no warning. -/
theorem survey_pixel_scale_silent_counterexample :
    survey_pixel_scale demoConfig "HST" (some "W") =
      .ok ⟨0.04, false⟩ := rfl

/-- Witness for the amended C9: Spitzer with an unknown filter hits the
explicit warned fallback. -/
theorem survey_pixel_scale_amended_witness :
    (∃ e, survey_pixel_scale demoConfig "Spitzer" (some "MIPS24") =
      .error e) ∨
    (∃ k v d, dictOfZipFwd ["IRAC1", "IRAC2", "IRAC3", "IRAC4"]
        [0.6, 0.6, 0.6, 0.6] = (k, v) :: d ∧
      survey_pixel_scale demoConfig "Spitzer" (some "MIPS24") =
        .ok ⟨v, true⟩) :=
  survey_pixel_scale_amended.1 demoConfig "Spitzer" (some "MIPS24")
    ⟨"Spitzer", ["IRAC1", "IRAC2", "IRAC3", "IRAC4"], .same 21.58,
      [0.6, 0.6, 0.6, 0.6]⟩
    ["IRAC1", "IRAC2", "IRAC3", "IRAC4"]
    rfl (by norm_num) (by simp) rfl
    (by
      intro f hf
      injection hf with hf
      subst hf
      rfl)

/-- The magnitude value on a positive flux. -/
theorem npMag_pos (fl zp : ℝ) (h : 0 < fl) :
    ((npLog10 fl).constMul (-2.5)).addConst zp =
      .finite (-2.5 * (Real.log fl / Real.log 10) + zp) := by
  simp [npLog10, h, NpVal.constMul, NpVal.addConst]

/-- The magnitude value on a non-positive flux is not finite. -/
theorem npMag_nonpos (fl zp : ℝ) (h : fl ≤ 0) :
    ¬ (((npLog10 fl).constMul (-2.5)).addConst zp).IsFinite := by
  rcases eq_or_lt_of_le h with heq | hlt
  · subst heq
    norm_num [npLog10, NpVal.constMul, NpVal.addConst, NpVal.IsFinite]
  · have h1 : ¬ (0 : ℝ) < fl := by linarith
    have h2 : fl ≠ 0 := ne_of_lt hlt
    simp [npLog10, h1, h2, NpVal.constMul, NpVal.addConst, NpVal.IsFinite]

/-- Every successful `magnitude_calculation` result has the final shape of
the source's closing lines. -/
theorem magnitude_calculation_shape (cfg : List ConfigRow)
    (acTables : String → Option ACTable)
    (errTable : String → String → Option (ℝ × ℝ)) (flux flux_err : ℝ)
    (survey : String) (filt : Option String) (ap_area : ℝ) (header : Header)
    (bkg_rms : ℝ) (r : CalResult)
    (hok : magnitude_calculation cfg acTables errTable flux flux_err survey
      filt ap_area header bkg_rms = .ok r) :
    r.mag = ((npLog10 r.flux).constMul (-2.5)).addConst r.zp ∧
    r.mag_err = |2.5 * r.flux_err / (r.flux * Real.log 10)| := by
  simp only [magnitude_calculation, bind, Except.bind] at hok
  repeat' split at hok
  all_goals
    first
    | exact absurd hok (by simp)
    | (simp only [pure, Except.pure, Except.ok.injEq] at hok
       subst hok
       exact ⟨rfl, rfl⟩)

/-- Claim C4: the calibrated magnitude is `-2.5*log10(flux) + zp` and its
error `|2.5*flux_err/(flux*ln 10)|`, both from the corrected flux and
propagated flux error; a non-positive flux yields a non-finite magnitude
(the call still succeeds). -/
theorem magnitude_formula (cfg : List ConfigRow)
    (acTables : String → Option ACTable)
    (errTable : String → String → Option (ℝ × ℝ)) (flux flux_err : ℝ)
    (survey : String) (filt : Option String) (ap_area : ℝ) (header : Header)
    (bkg_rms : ℝ) (r : CalResult)
    (hok : magnitude_calculation cfg acTables errTable flux flux_err survey
      filt ap_area header bkg_rms = .ok r) :
    (0 < r.flux →
      r.mag = .finite (-2.5 * (Real.log r.flux / Real.log 10) + r.zp)) ∧
    r.mag_err = |2.5 * r.flux_err / (r.flux * Real.log 10)| ∧
    (r.flux ≤ 0 → ¬ r.mag.IsFinite) := by
  obtain ⟨hmag, herr⟩ := magnitude_calculation_shape cfg acTables errTable
    flux flux_err survey filt ap_area header bkg_rms r hok
  refine ⟨fun hpos => ?_, herr, fun hnp => ?_⟩
  · rw [hmag]
    exact npMag_pos r.flux r.zp hpos
  · rw [hmag]
    exact npMag_nonpos r.flux r.zp hnp

/-- Claim C2: for the total-count surveys the uncertainty model is invoked on
the caller's (undivided) flux and flux error, and the returned flux and flux
error are those values divided by the exposure time, with the magnitude
computed from the divided flux. -/
theorem total_count_division_after_error_model (cfg : List ConfigRow)
    (acTables : String → Option ACTable)
    (errTable : String → String → Option (ℝ × ℝ)) (flux flux_err : ℝ)
    (survey : String) (filt : Option String) (ap_area : ℝ) (header : Header)
    (bkg_rms : ℝ) (r : CalResult) (hs : survey ∈ totalCountSurveys)
    (hok : magnitude_calculation cfg acTables errTable flux flux_err survey
      filt ap_area header bkg_rms = .ok r) :
    ∃ t u, r.flux = flux / t ∧ r.flux_err = u / t ∧
      get_image_exptime cfg header survey = .ok t ∧
      uncertainty_calculation cfg errTable flux flux_err survey filt ap_area
        header bkg_rms = .ok u ∧
      r.mag = ((npLog10 (flux / t)).constMul (-2.5)).addConst r.zp := by
  simp only [totalCountSurveys, List.mem_cons, List.mem_singleton,
    List.not_mem_nil, or_false] at hs
  rcases hs with rfl | rfl | rfl <;>
  · simp [magnitude_calculation, totalCountSurveys, bind, Except.bind, pure,
      Except.pure] at hok
    repeat' split at hok
    all_goals
      first
      | (simp at hok
         done)
      | (simp only [Except.ok.injEq] at hok
         subst hok
         refine ⟨_, _, rfl, rfl, ?_, ?_, rfl⟩ <;> assumption)

/-- Witness for C4 at a concrete 2MASS input. -/
theorem magnitude_formula_witness :
    ∃ r, magnitude_calculation demoConfig noACTables noErrTable 60 1 "2MASS"
        (some "J") 0 emptyHeader 0 = .ok r ∧
      (0 < r.flux →
        r.mag = .finite (-2.5 * (Real.log r.flux / Real.log 10) + r.zp)) ∧
      r.mag_err = |2.5 * r.flux_err / (r.flux * Real.log 10)| ∧
      (r.flux ≤ 0 → ¬ r.mag.IsFinite) := by
  obtain ⟨r, hr⟩ : ∃ r, magnitude_calculation demoConfig noACTables
      noErrTable 60 1 "2MASS" (some "J") 0 emptyHeader 0 = .ok r := ⟨_, rfl⟩
  exact ⟨r, hr, magnitude_formula demoConfig noACTables noErrTable 60 1
    "2MASS" (some "J") 0 emptyHeader 0 r hr⟩

/-- Witness for C2 at a concrete PS1 input. -/
theorem total_count_division_witness :
    ∃ r t u, magnitude_calculation demoConfig noACTables noErrTable 4 0 "PS1"
        (some "g") 0
        { cellGain := some 1, cellReadnoise := some 0, EXPTIME := some 2 }
        0 = .ok r ∧
      r.flux = 4 / t ∧ r.flux_err = u / t ∧
      get_image_exptime demoConfig
        { cellGain := some 1, cellReadnoise := some 0, EXPTIME := some 2 }
        "PS1" = .ok t ∧
      uncertainty_calculation demoConfig noErrTable 4 0 "PS1" (some "g") 0
        { cellGain := some 1, cellReadnoise := some 0, EXPTIME := some 2 }
        0 = .ok u := by
  obtain ⟨r, hr⟩ : ∃ r, magnitude_calculation demoConfig noACTables
      noErrTable 4 0 "PS1" (some "g") 0
      { cellGain := some 1, cellReadnoise := some 0, EXPTIME := some 2 }
      0 = .ok r := ⟨_, rfl⟩
  obtain ⟨t, u, h1, h2, h3, h4, _⟩ := total_count_division_after_error_model
    demoConfig noACTables noErrTable 4 0 "PS1" (some "g") 0
    { cellGain := some 1, cellReadnoise := some 0, EXPTIME := some 2 } 0 r
    (by simp [totalCountSurveys]) hr
  exact ⟨r, t, u, hr, h1, h2, h3, h4⟩

/-- Collapse one quadrature level: the inner combined term re-expressed as a
single nonnegative extra term. -/
theorem quad_exists (b e f : ℝ) : ∃ t, 0 ≤ t ∧
    Real.sqrt (Real.sqrt (b ^ 2 + e ^ 2) ^ 2 + f ^ 2) =
    Real.sqrt (b ^ 2 + t ^ 2) := by
  refine ⟨Real.sqrt (e ^ 2 + f ^ 2), Real.sqrt_nonneg _, ?_⟩
  rw [Real.sq_sqrt (by positivity), Real.sq_sqrt (by positivity), add_assoc]

/-- A single extra term in quadrature is a nonnegative extra term. -/
theorem quad_exists1 (b e : ℝ) : ∃ t, 0 ≤ t ∧
    Real.sqrt (b ^ 2 + e ^ 2) = Real.sqrt (b ^ 2 + t ^ 2) :=
  ⟨|e|, abs_nonneg _, by rw [sq_abs]⟩

/-- Collapse two quadrature levels. -/
theorem quad_exists3 (b e u1 u2 : ℝ) : ∃ t, 0 ≤ t ∧
    Real.sqrt (Real.sqrt (Real.sqrt (b ^ 2 + e ^ 2) ^ 2 + u1 ^ 2) ^ 2 +
      u2 ^ 2) = Real.sqrt (b ^ 2 + t ^ 2) := by
  refine ⟨Real.sqrt (e ^ 2 + u1 ^ 2 + u2 ^ 2), Real.sqrt_nonneg _, ?_⟩
  rw [Real.sq_sqrt (by positivity), Real.sq_sqrt (by positivity),
    Real.sq_sqrt (by positivity)]
  congr 1
  ring

/-- A successful `getField` means the key was present. -/
theorem getField_ok {α : Type} (o : Option α) (fld : String) (x : α)
    (h : getField o fld = .ok x) : o = some x := by
  cases o with
  | none => simp [getField] at h
  | some y => simpa [getField] using h

/-- Claim C1, amended: every successful call returns
`|flux_local * 0.4 * ln 10 * mag_err|` where `flux_local` is the caller's
flux except for Spitzer (where it has been divided by the `EFCONV` header
value), and for every survey other than 2MASS and the WISE family (which
replace the base term by their own expression) the combined magnitude error
is the base term `1.0857*flux_err/flux` in quadrature with a nonnegative
extra term. -/
theorem uncertainty_conversion_amended (cfg : List ConfigRow)
    (errTable : String → String → Option (ℝ × ℝ)) (flux flux_err : ℝ)
    (survey : String) (filt : Option String) (ap_area : ℝ) (header : Header)
    (bkg_rms : ℝ) (v : ℝ) (hs : survey ∈ supportedSurveys)
    (hok : uncertainty_calculation cfg errTable flux flux_err survey filt
      ap_area header bkg_rms = .ok v) :
    ∃ m fl, uncertainty_parts cfg errTable flux flux_err survey filt ap_area
        header bkg_rms = .ok (m, fl) ∧
      v = |fl * 0.4 * Real.log 10 * m| ∧
      (survey ≠ "Spitzer" → fl = flux) ∧
      (survey = "Spitzer" → ∃ ef, header.EFCONV = some ef ∧ fl = flux / ef) ∧
      (survey ∉ (["2MASS", "WISE", "unWISE"] : List String) →
        ∃ t, 0 ≤ t ∧
          m = Real.sqrt ((1.0857 * flux_err / flux) ^ 2 + t ^ 2)) := by
  cases hp2 : uncertainty_parts cfg errTable flux flux_err survey filt
      ap_area header bkg_rms with
  | error e =>
    unfold uncertainty_calculation at hok
    rw [hp2] at hok
    simp [Except.map] at hok
  | ok p =>
    obtain ⟨m, fl⟩ := p
    have hv : v = |fl * 0.4 * Real.log 10 * m| := by
      unfold uncertainty_calculation at hok
      rw [hp2] at hok
      simp [Except.map] at hok
      exact hok.symm
    have hporig := hp2
    simp only [supportedSurveys, List.mem_cons, List.not_mem_nil,
      or_false] at hs
    rcases hs with rfl | rfl | rfl | rfl | rfl | rfl | rfl | rfl | rfl |
      rfl | rfl | rfl | rfl | rfl
    · -- PS1
      simp [uncertainty_parts, shotNoiseSurveys, containsStr, bind,
        Except.bind, pure, Except.pure] at hp2
      repeat' split at hp2
      all_goals first
        | (simp at hp2
           done)
        | (simp only [Except.ok.injEq, Prod.mk.injEq] at hp2
           obtain ⟨hm, hfl⟩ := hp2
           subst hm
           subst hfl
           exact ⟨_, _, rfl, hv, fun _ => rfl, fun h => by simp at h,
             fun _ => quad_exists _ _ _⟩)
    · -- DES
      simp [uncertainty_parts, shotNoiseSurveys, containsStr, containsSub,
        bind, Except.bind, pure, Except.pure] at hp2
      repeat' split at hp2
      all_goals first
        | (simp at hp2
           done)
        | (simp only [Except.ok.injEq, Prod.mk.injEq] at hp2
           obtain ⟨hm, hfl⟩ := hp2
           subst hm
           subst hfl
           exact ⟨_, _, rfl, hv, fun _ => rfl, fun h => by simp at h,
             fun _ => quad_exists3 _ _ _ _⟩)
    · -- SDSS
      simp [uncertainty_parts, shotNoiseSurveys, containsStr, containsSub,
        bind, Except.bind, pure, Except.pure] at hp2
      repeat' split at hp2
      all_goals first
        | (simp at hp2
           done)
        | (simp only [Except.ok.injEq, Prod.mk.injEq] at hp2
           obtain ⟨hm, hfl⟩ := hp2
           subst hm
           subst hfl
           exact ⟨_, _, rfl, hv, fun _ => rfl, fun h => by simp at h,
             fun _ => quad_exists1 _ _⟩)
    · -- GALEX
      simp [uncertainty_parts, shotNoiseSurveys, containsStr, containsSub,
        bind, Except.bind, pure, Except.pure] at hp2
      repeat' split at hp2
      all_goals first
        | (simp at hp2
           done)
        | (simp only [Except.ok.injEq, Prod.mk.injEq] at hp2
           obtain ⟨hm, hfl⟩ := hp2
           subst hm
           subst hfl
           exact ⟨_, _, rfl, hv, fun _ => rfl, fun h => by simp at h,
             fun _ => quad_exists1 _ _⟩)
    · -- 2MASS
      simp [uncertainty_parts, shotNoiseSurveys, containsStr, containsSub,
        bind, Except.bind, pure, Except.pure] at hp2
      repeat' split at hp2
      all_goals first
        | (simp at hp2
           done)
        | (simp only [Except.ok.injEq, Prod.mk.injEq] at hp2
           obtain ⟨hm, hfl⟩ := hp2
           subst hm
           subst hfl
           exact ⟨_, _, rfl, hv, fun _ => rfl, fun h => by simp at h,
             fun hnot => absurd (by simp) hnot⟩)
    · -- WISE
      simp [uncertainty_parts, shotNoiseSurveys, containsStr, containsSub,
        bind, Except.bind, pure, Except.pure] at hp2
      repeat' split at hp2
      all_goals first
        | (simp at hp2
           done)
        | (simp only [Except.ok.injEq, Prod.mk.injEq] at hp2
           obtain ⟨hm, hfl⟩ := hp2
           subst hm
           subst hfl
           exact ⟨_, _, rfl, hv, fun _ => rfl, fun h => by simp at h,
             fun hnot => absurd (by simp) hnot⟩)
    · -- unWISE
      simp [uncertainty_parts, shotNoiseSurveys, containsStr, containsSub,
        bind, Except.bind, pure, Except.pure] at hp2
      repeat' split at hp2
      all_goals first
        | (simp at hp2
           done)
        | (simp only [Except.ok.injEq, Prod.mk.injEq] at hp2
           obtain ⟨hm, hfl⟩ := hp2
           subst hm
           subst hfl
           exact ⟨_, _, rfl, hv, fun _ => rfl, fun h => by simp at h,
             fun hnot => absurd (by simp) hnot⟩)
    · -- LegacySurvey
      simp [uncertainty_parts, shotNoiseSurveys, containsStr, containsSub,
        bind, Except.bind, pure, Except.pure] at hp2
      repeat' split at hp2
      all_goals first
        | (simp at hp2
           done)
        | (simp only [Except.ok.injEq, Prod.mk.injEq] at hp2
           obtain ⟨hm, hfl⟩ := hp2
           subst hm
           subst hfl
           exact ⟨_, _, rfl, hv, fun _ => rfl, fun h => by simp at h,
             fun _ => quad_exists _ _ _⟩)
    · -- Spitzer
      simp [uncertainty_parts, shotNoiseSurveys, containsStr, containsSub,
        bind, Except.bind, pure, Except.pure] at hp2
      repeat' split at hp2
      all_goals first
        | (simp at hp2
           done)
        | (rename_i ef hef
           simp only [Except.ok.injEq, Prod.mk.injEq] at hp2
           obtain ⟨hm, hfl⟩ := hp2
           subst hm
           subst hfl
           exact ⟨_, _, rfl, hv, fun h => absurd rfl h,
             fun _ => ⟨ef, getField_ok _ _ _ hef, rfl⟩,
             fun _ => quad_exists1 _ _⟩)
    · -- VISTA
      simp [uncertainty_parts, shotNoiseSurveys, containsStr, containsSub,
        bind, Except.bind, pure, Except.pure] at hp2
      repeat' split at hp2
      all_goals first
        | (simp at hp2
           done)
        | (simp only [Except.ok.injEq, Prod.mk.injEq] at hp2
           obtain ⟨hm, hfl⟩ := hp2
           subst hm
           subst hfl
           exact ⟨_, _, rfl, hv, fun _ => rfl, fun h => by simp at h,
             fun _ => quad_exists _ _ _⟩)
    · -- HST
      simp [uncertainty_parts, shotNoiseSurveys, containsStr, containsSub,
        bind, Except.bind, pure, Except.pure] at hp2
      repeat' split at hp2
      all_goals first
        | (simp at hp2
           done)
        | (simp only [Except.ok.injEq, Prod.mk.injEq] at hp2
           obtain ⟨hm, hfl⟩ := hp2
           subst hm
           subst hfl
           exact ⟨_, _, rfl, hv, fun _ => rfl, fun h => by simp at h,
             fun _ => quad_exists1 _ _⟩)
    · -- SkyMapper
      simp [uncertainty_parts, shotNoiseSurveys, containsStr, containsSub,
        bind, Except.bind, pure, Except.pure] at hp2
      repeat' split at hp2
      all_goals first
        | (simp at hp2
           done)
        | (simp only [Except.ok.injEq, Prod.mk.injEq] at hp2
           obtain ⟨hm, hfl⟩ := hp2
           subst hm
           subst hfl
           exact ⟨_, _, rfl, hv, fun _ => rfl, fun h => by simp at h,
             fun _ => quad_exists _ _ _⟩)
    · -- SPLUS
      simp [uncertainty_parts, shotNoiseSurveys, containsStr, containsSub,
        bind, Except.bind, pure, Except.pure] at hp2
      repeat' split at hp2
      all_goals first
        | (simp at hp2
           done)
        | (simp only [Except.ok.injEq, Prod.mk.injEq] at hp2
           obtain ⟨hm, hfl⟩ := hp2
           subst hm
           subst hfl
           exact ⟨_, _, rfl, hv, fun _ => rfl, fun h => by simp at h,
             fun _ => quad_exists _ _ _⟩)
    · -- UKIDSS
      simp [uncertainty_parts, shotNoiseSurveys, containsStr, containsSub,
        bind, Except.bind, pure, Except.pure] at hp2
      repeat' split at hp2
      all_goals first
        | (simp at hp2
           done)
        | (simp only [Except.ok.injEq, Prod.mk.injEq] at hp2
           obtain ⟨hm, hfl⟩ := hp2
           subst hm
           subst hfl
           exact ⟨_, _, rfl, hv, fun _ => rfl, fun h => by simp at h,
             fun _ => quad_exists _ _ _⟩)


/-- Counterexample to claim C1 as stated: for Spitzer the final conversion
uses the flux already divided by `EFCONV`, not the flux the caller passed
in. -/
theorem uncertainty_conversion_counterexample :
    uncertainty_parts demoConfig noErrTable 100 0 "Spitzer" none 0
      { INSTRUME := some "IRAC", CHNLNUM := some 1, EXPTIME := some 1,
        EFCONV := some 4 } 0 =
      .ok (Real.sqrt ((1.0857 * 0 / 100) ^ 2 +
        (1.0857 * Real.sqrt (0 * 16.0 ^ 2 + 100 / 4 / (3.8 * 4)) /
          (100 / 4)) ^ 2), 100 / 4) ∧
    uncertainty_calculation demoConfig noErrTable 100 0 "Spitzer" none 0
      { INSTRUME := some "IRAC", CHNLNUM := some 1, EXPTIME := some 1,
        EFCONV := some 4 } 0 ≠
      .ok |(100 : ℝ) * 0.4 * Real.log 10 *
        Real.sqrt ((1.0857 * 0 / 100) ^ 2 +
          (1.0857 * Real.sqrt (0 * 16.0 ^ 2 + 100 / 4 / (3.8 * 4)) /
            (100 / 4)) ^ 2)| := by
  constructor
  · rfl
  · intro h
    have heval : uncertainty_calculation demoConfig noErrTable 100 0
        "Spitzer" none 0
        { INSTRUME := some "IRAC", CHNLNUM := some 1, EXPTIME := some 1,
          EFCONV := some 4 } 0 =
        .ok |(100 : ℝ) / 4 * 0.4 * Real.log 10 *
          Real.sqrt ((1.0857 * 0 / 100) ^ 2 +
            (1.0857 * Real.sqrt (0 * 16.0 ^ 2 + 100 / 4 / (3.8 * 4)) /
              (100 / 4)) ^ 2)| := rfl
    rw [heval] at h
    have hM : 0 < Real.sqrt ((1.0857 * 0 / 100) ^ 2 +
        (1.0857 * Real.sqrt (0 * 16.0 ^ 2 + 100 / 4 / (3.8 * 4)) /
          (100 / 4)) ^ 2) := by positivity
    have hL : 0 < Real.log 10 := Real.log_pos (by norm_num)
    have heq := Except.ok.inj h
    rw [abs_of_pos (by positivity), abs_of_pos (by positivity)] at heq
    nlinarith [mul_pos hL hM]

/-- Witness for the amended C1 at a concrete SDSS input. -/
theorem uncertainty_conversion_amended_witness :
    ∃ v m fl, uncertainty_calculation demoConfig noErrTable 200 10 "SDSS"
        (some "g") 0 { CAMCOL := some 3, RUN := some 2000 } 0 = .ok v ∧
      uncertainty_parts demoConfig noErrTable 200 10 "SDSS" (some "g") 0
        { CAMCOL := some 3, RUN := some 2000 } 0 = .ok (m, fl) ∧
      v = |fl * 0.4 * Real.log 10 * m| ∧ fl = 200 ∧
      ∃ t, 0 ≤ t ∧
        m = Real.sqrt ((1.0857 * 10 / 200) ^ 2 + t ^ 2) := by
  obtain ⟨v, hv⟩ : ∃ v, uncertainty_calculation demoConfig noErrTable 200 10
      "SDSS" (some "g") 0 { CAMCOL := some 3, RUN := some 2000 } 0 =
      .ok v := ⟨_, rfl⟩
  obtain ⟨m, fl, h1, h2, h3, _, h5⟩ := uncertainty_conversion_amended
    demoConfig noErrTable 200 10 "SDSS" (some "g") 0
    { CAMCOL := some 3, RUN := some 2000 } 0 v
    (by simp [supportedSurveys]) hv
  exact ⟨v, m, fl, hv, h1, h2, h3 (by simp), h5 (by simp)⟩


/-- Monotonicity of the absolute-value flux conversion in the magnitude
error. -/
theorem convAbs_mono (a m₁ m₂ : ℝ) (h0 : 0 ≤ m₁) (h : m₁ ≤ m₂) :
    |a * m₁| ≤ |a * m₂| := by
  rw [abs_mul, abs_mul, abs_of_nonneg h0, abs_of_nonneg (h0.trans h)]
  exact mul_le_mul_of_nonneg_left h (abs_nonneg a)

/-- The squared base term is monotone in the flux error. -/
theorem base_sq_mono (flux e₁ e₂ : ℝ) (hf : 0 < flux) (h0 : 0 ≤ e₁)
    (h : e₁ ≤ e₂) :
    (1.0857 * e₁ / flux) ^ 2 ≤ (1.0857 * e₂ / flux) ^ 2 := by
  have h1 : (0 : ℝ) ≤ 1.0857 * e₁ / flux := by positivity
  have h2 : 1.0857 * e₁ / flux ≤ 1.0857 * e₂ / flux := by
    apply (div_le_div_right hf).mpr
    nlinarith
  exact pow_le_pow_left h1 h2 2

/-- One quadrature level is monotone in the squared base term. -/
theorem sqrt_quad_mono1 (b₁ b₂ E : ℝ) (hb : b₁ ^ 2 ≤ b₂ ^ 2) :
    Real.sqrt (b₁ ^ 2 + E ^ 2) ≤ Real.sqrt (b₂ ^ 2 + E ^ 2) :=
  Real.sqrt_le_sqrt (by linarith)

/-- Two quadrature levels are monotone in the squared base term. -/
theorem sqrt_quad_mono2 (b₁ b₂ E F : ℝ) (hb : b₁ ^ 2 ≤ b₂ ^ 2) :
    Real.sqrt (Real.sqrt (b₁ ^ 2 + E ^ 2) ^ 2 + F ^ 2) ≤
    Real.sqrt (Real.sqrt (b₂ ^ 2 + E ^ 2) ^ 2 + F ^ 2) := by
  rw [Real.sq_sqrt (by positivity), Real.sq_sqrt (by positivity)]
  exact Real.sqrt_le_sqrt (by linarith)

/-- Three quadrature levels are monotone in the squared base term. -/
theorem sqrt_quad_mono3 (b₁ b₂ E u1 u2 : ℝ) (hb : b₁ ^ 2 ≤ b₂ ^ 2) :
    Real.sqrt (Real.sqrt (Real.sqrt (b₁ ^ 2 + E ^ 2) ^ 2 + u1 ^ 2) ^ 2 +
      u2 ^ 2) ≤
    Real.sqrt (Real.sqrt (Real.sqrt (b₂ ^ 2 + E ^ 2) ^ 2 + u1 ^ 2) ^ 2 +
      u2 ^ 2) := by
  rw [Real.sq_sqrt (by positivity), Real.sq_sqrt (by positivity),
    Real.sq_sqrt (by positivity), Real.sq_sqrt (by positivity)]
  exact Real.sqrt_le_sqrt (by linarith)

/-- Division by a nonnegative denominator preserves order (with the junk
value `x / 0 = 0` both sides coincide). -/
theorem div_le_div_of_nonneg_denom (a b c : ℝ) (hab : a ≤ b) (hc : 0 ≤ c) :
    a / c ≤ b / c := by
  rcases hc.eq_or_lt with heq | hpos
  · rw [← heq]
    simp
  · exact (div_le_div_right hpos).mpr hab


/-- Monotonicity of the WISE-family magnitude error in the flux error. -/
theorem wise_mag_mono (A K F2 z e₁ e₂ : ℝ) (hA : 0 ≤ A) (hK : 0 ≤ K)
    (hF : 0 ≤ F2) (h0 : 0 ≤ e₁) (h : e₁ ≤ e₂) :
    Real.sqrt (Real.sqrt (1.179 *
      Real.sqrt (A * (e₁ ^ 2 + K) + e₁ ^ 2) ^ 2 / F2) ^ 2 + z ^ 2) ≤
    Real.sqrt (Real.sqrt (1.179 *
      Real.sqrt (A * (e₂ ^ 2 + K) + e₂ ^ 2) ^ 2 / F2) ^ 2 + z ^ 2) := by
  have hI1 : 0 ≤ A * (e₁ ^ 2 + K) + e₁ ^ 2 :=
    add_nonneg (mul_nonneg hA (add_nonneg (sq_nonneg _) hK)) (sq_nonneg _)
  have hI2 : 0 ≤ A * (e₂ ^ 2 + K) + e₂ ^ 2 :=
    add_nonneg (mul_nonneg hA (add_nonneg (sq_nonneg _) hK)) (sq_nonneg _)
  have he2 : e₁ ^ 2 ≤ e₂ ^ 2 := pow_le_pow_left h0 h 2
  rw [Real.sq_sqrt hI1, Real.sq_sqrt hI2, Real.sq_sqrt (by positivity),
    Real.sq_sqrt (by positivity)]
  apply Real.sqrt_le_sqrt
  have hImono : 1.179 * (A * (e₁ ^ 2 + K) + e₁ ^ 2) ≤
      1.179 * (A * (e₂ ^ 2 + K) + e₂ ^ 2) := by nlinarith
  have := div_le_div_of_nonneg_denom (1.179 * (A * (e₁ ^ 2 + K) + e₁ ^ 2))
    (1.179 * (A * (e₂ ^ 2 + K) + e₂ ^ 2)) F2 hImono hF
  linarith

/-- Claim C5: for every supported survey, with the flux positive and all
other arguments fixed, the propagated flux error is monotonically
non-decreasing in the input flux error. -/
theorem uncertainty_monotone_in_flux_err (cfg : List ConfigRow)
    (errTable : String → String → Option (ℝ × ℝ)) (flux e₁ e₂ : ℝ)
    (survey : String) (filt : Option String) (ap_area : ℝ) (header : Header)
    (bkg_rms : ℝ) (v₁ v₂ : ℝ) (hs : survey ∈ supportedSurveys)
    (hflux : 0 < flux) (h0 : 0 ≤ e₁) (h12 : e₁ ≤ e₂) (hap : 0 ≤ ap_area)
    (hok1 : uncertainty_calculation cfg errTable flux e₁ survey filt ap_area
      header bkg_rms = .ok v₁)
    (hok2 : uncertainty_calculation cfg errTable flux e₂ survey filt ap_area
      header bkg_rms = .ok v₂) :
    v₁ ≤ v₂ := by
  cases hp1 : uncertainty_parts cfg errTable flux e₁ survey filt ap_area
      header bkg_rms with
  | error err =>
    unfold uncertainty_calculation at hok1
    rw [hp1] at hok1
    simp [Except.map] at hok1
  | ok p1 =>
  obtain ⟨m₁, fl₁⟩ := p1
  have hv1 : v₁ = |fl₁ * 0.4 * Real.log 10 * m₁| := by
    unfold uncertainty_calculation at hok1
    rw [hp1] at hok1
    simp [Except.map] at hok1
    exact hok1.symm
  cases hp2 : uncertainty_parts cfg errTable flux e₂ survey filt ap_area
      header bkg_rms with
  | error err =>
    unfold uncertainty_calculation at hok2
    rw [hp2] at hok2
    simp [Except.map] at hok2
  | ok p2 =>
  obtain ⟨m₂, fl₂⟩ := p2
  have hv2 : v₂ = |fl₂ * 0.4 * Real.log 10 * m₂| := by
    unfold uncertainty_calculation at hok2
    rw [hp2] at hok2
    simp [Except.map] at hok2
    exact hok2.symm
  rw [hv1, hv2]
  simp only [supportedSurveys, List.mem_cons, List.not_mem_nil,
    or_false] at hs
  rcases hs with rfl | rfl | rfl | rfl | rfl | rfl | rfl | rfl | rfl |
    rfl | rfl | rfl | rfl | rfl
  · -- PS1
    cases hE : get_image_exptime cfg header "PS1" with
    | error err => simp [uncertainty_parts, hE, bind, Except.bind] at hp1
    | ok t =>
    cases hG : get_image_gain cfg header "PS1" with
    | error err =>
      simp [uncertainty_parts, hE, hG, bind, Except.bind] at hp1
    | ok g =>
    cases hR : get_image_readnoise cfg header "PS1" with
    | error err =>
      simp [uncertainty_parts, hE, hG, hR, bind, Except.bind] at hp1
    | ok rn =>
    cases hfi : filt with
    | none =>
      simp [uncertainty_parts, hE, hG, hR, hfi, lookupDictF,
        shotNoiseSurveys, containsStr, containsSub, bind, Except.bind,
        pure, Except.pure] at hp1
    | some f =>
    cases hF : ps1FloorUnc f with
    | none =>
      simp [uncertainty_parts, hE, hG, hR, hfi, hF, lookupDictF,
        shotNoiseSurveys, containsStr, containsSub, bind, Except.bind,
        pure, Except.pure] at hp1
    | some floorv =>
    simp [uncertainty_parts, hE, hG, hR, hfi, hF, lookupDictF,
      shotNoiseSurveys, containsStr, containsSub, bind, Except.bind, pure,
      Except.pure] at hp1 hp2
    obtain ⟨hm₁, hfl₁⟩ := hp1
    obtain ⟨hm₂, hfl₂⟩ := hp2
    subst hm₁
    subst hfl₁
    subst hm₂
    subst hfl₂
    exact convAbs_mono _ _ _ (Real.sqrt_nonneg _)
      (sqrt_quad_mono2 _ _ _ _ (base_sq_mono flux e₁ e₂ hflux h0 h12))
  · -- DES
    cases hE : get_image_exptime cfg header "DES" with
    | error err => simp [uncertainty_parts, hE, bind, Except.bind] at hp1
    | ok t =>
    cases hG : get_image_gain cfg header "DES" with
    | error err =>
      simp [uncertainty_parts, hE, hG, bind, Except.bind] at hp1
    | ok g =>
    cases hR : get_image_readnoise cfg header "DES" with
    | error err =>
      simp [uncertainty_parts, hE, hG, hR, bind, Except.bind] at hp1
    | ok rn =>
    cases hfi : filt with
    | none =>
      simp [uncertainty_parts, hE, hG, hR, hfi, lookupDictF, getField,
        shotNoiseSurveys, containsStr, containsSub, bind, Except.bind,
        pure, Except.pure] at hp1
    | some f =>
    cases hU1 : desZpStatUnc f with
    | none =>
      simp [uncertainty_parts, hE, hG, hR, hfi, hU1, lookupDictF, getField,
        shotNoiseSurveys, containsStr, containsSub, bind, Except.bind,
        pure, Except.pure] at hp1
    | some u1 =>
    cases hU2 : desCoaddZpUnc f with
    | none =>
      simp [uncertainty_parts, hE, hG, hR, hfi, hU1, hU2, lookupDictF, getField,
        shotNoiseSurveys, containsStr, containsSub, bind, Except.bind,
        pure, Except.pure] at hp1
    | some u2 =>
    simp [uncertainty_parts, hE, hG, hR, hfi, hU1, hU2, lookupDictF, getField,
        shotNoiseSurveys, containsStr, containsSub, bind, Except.bind,
        pure, Except.pure] at hp1 hp2
    obtain ⟨hm₁, hfl₁⟩ := hp1
    obtain ⟨hm₂, hfl₂⟩ := hp2
    subst hm₁
    subst hfl₁
    subst hm₂
    subst hfl₂
    exact convAbs_mono _ _ _ (Real.sqrt_nonneg _)
      (sqrt_quad_mono3 _ _ _ _ _ (base_sq_mono flux e₁ e₂ hflux h0 h12))
  · -- SDSS
    cases hE : get_image_exptime cfg header "SDSS" with
    | error err => simp [uncertainty_parts, hE, bind, Except.bind] at hp1
    | ok t =>
    cases hG : get_image_gain cfg header "SDSS" with
    | error err =>
      simp [uncertainty_parts, hE, hG, bind, Except.bind] at hp1
    | ok g =>
    cases hR : get_image_readnoise cfg header "SDSS" with
    | error err =>
      simp [uncertainty_parts, hE, hG, hR, bind, Except.bind] at hp1
    | ok rn =>
    cases hC : header.CAMCOL with
    | none =>
      simp [uncertainty_parts, hE, hG, hR, hC, lookupDictF, getField,
        shotNoiseSurveys, containsStr, containsSub, bind, Except.bind,
        pure, Except.pure] at hp1
    | some cc =>
    cases hRN : header.RUN with
    | none =>
      simp [uncertainty_parts, hE, hG, hR, hC, hRN, lookupDictF, getField,
        shotNoiseSurveys, containsStr, containsSub, bind, Except.bind,
        pure, Except.pure] at hp1
    | some runv =>
    cases hfi : filt with
    | none =>
      simp [uncertainty_parts, hE, hG, hR, hC, hRN, hfi, lookupDictF, getField,
        shotNoiseSurveys, containsStr, containsSub, bind, Except.bind,
        pure, Except.pure] at hp1
    | some f =>
    cases hSG : sdssGainTable f cc with
    | none =>
      simp [uncertainty_parts, hE, hG, hR, hC, hRN, hfi, hSG, lookupDictF, getField,
        shotNoiseSurveys, containsStr, containsSub, bind, Except.bind,
        pure, Except.pure] at hp1
    | some sg =>
    cases hSD : sdssDarkVarTable f cc with
    | none =>
      simp [uncertainty_parts, hE, hG, hR, hC, hRN, hfi, hSG, hSD, lookupDictF, getField,
        shotNoiseSurveys, containsStr, containsSub, bind, Except.bind,
        pure, Except.pure] at hp1
    | some sd =>
    simp [uncertainty_parts, hE, hG, hR, hC, hRN, hfi, hSG, hSD, lookupDictF, getField,
        shotNoiseSurveys, containsStr, containsSub, bind, Except.bind,
        pure, Except.pure] at hp1 hp2
    obtain ⟨hm₁, hfl₁⟩ := hp1
    obtain ⟨hm₂, hfl₂⟩ := hp2
    subst hm₁
    subst hfl₁
    subst hm₂
    subst hfl₂
    exact convAbs_mono _ _ _ (Real.sqrt_nonneg _)
      (sqrt_quad_mono1 _ _ _ (base_sq_mono flux e₁ e₂ hflux h0 h12))
  · -- GALEX
    cases hE : get_image_exptime cfg header "GALEX" with
    | error err => simp [uncertainty_parts, hE, bind, Except.bind] at hp1
    | ok t =>
    cases hG : get_image_gain cfg header "GALEX" with
    | error err =>
      simp [uncertainty_parts, hE, hG, bind, Except.bind] at hp1
    | ok g =>
    cases hR : get_image_readnoise cfg header "GALEX" with
    | error err =>
      simp [uncertainty_parts, hE, hG, hR, bind, Except.bind] at hp1
    | ok rn =>
    by_cases hfu : filt = some "FUV"
    · simp [uncertainty_parts, hE, hG, hR, hfu, lookupDictF, getField,
        shotNoiseSurveys, containsStr, containsSub, bind, Except.bind,
        pure, Except.pure] at hp1 hp2
      obtain ⟨hm₁, hfl₁⟩ := hp1
      obtain ⟨hm₂, hfl₂⟩ := hp2
      subst hm₁
      subst hfl₁
      subst hm₂
      subst hfl₂
      exact convAbs_mono _ _ _ (Real.sqrt_nonneg _)
        (sqrt_quad_mono1 _ _ _ (base_sq_mono flux e₁ e₂ hflux h0 h12))
    · by_cases hfn : filt = some "NUV"
      · simp [uncertainty_parts, hE, hG, hR, hfu, hfn, lookupDictF, getField,
        shotNoiseSurveys, containsStr, containsSub, bind, Except.bind,
        pure, Except.pure] at hp1 hp2
        obtain ⟨hm₁, hfl₁⟩ := hp1
        obtain ⟨hm₂, hfl₂⟩ := hp2
        subst hm₁
        subst hfl₁
        subst hm₂
        subst hfl₂
        exact convAbs_mono _ _ _ (Real.sqrt_nonneg _)
          (sqrt_quad_mono1 _ _ _ (base_sq_mono flux e₁ e₂ hflux h0 h12))
      · simp [uncertainty_parts, hE, hG, hR, hfu, hfn, lookupDictF, getField,
        shotNoiseSurveys, containsStr, containsSub, bind, Except.bind,
        pure, Except.pure] at hp1
  · -- 2MASS
    cases hE : get_image_exptime cfg header "2MASS" with
    | error err => simp [uncertainty_parts, hE, bind, Except.bind] at hp1
    | ok t =>
    cases hG : get_image_gain cfg header "2MASS" with
    | error err =>
      simp [uncertainty_parts, hE, hG, bind, Except.bind] at hp1
    | ok g =>
    cases hR : get_image_readnoise cfg header "2MASS" with
    | error err =>
      simp [uncertainty_parts, hE, hG, hR, bind, Except.bind] at hp1
    | ok rn =>
    simp [uncertainty_parts, hE, hG, hR, lookupDictF, getField,
        shotNoiseSurveys, containsStr, containsSub, bind, Except.bind,
        pure, Except.pure] at hp1 hp2
    obtain ⟨hm₁, hfl₁⟩ := hp1
    obtain ⟨hm₂, hfl₂⟩ := hp2
    subst hm₁
    subst hfl₁
    subst hm₂
    subst hfl₂
    exact le_refl _
  · -- WISE
    cases hE : get_image_exptime cfg header "WISE" with
    | error err => simp [uncertainty_parts, hE, bind, Except.bind] at hp1
    | ok t =>
    cases hG : get_image_gain cfg header "WISE" with
    | error err =>
      simp [uncertainty_parts, hE, hG, bind, Except.bind] at hp1
    | ok g =>
    cases hR : get_image_readnoise cfg header "WISE" with
    | error err =>
      simp [uncertainty_parts, hE, hG, hR, bind, Except.bind] at hp1
    | ok rn =>
    cases hfi : filt with
    | none =>
      simp [uncertainty_parts, hE, hG, hR, hfi, lookupDictF, getField,
        shotNoiseSurveys, containsStr, containsSub, bind, Except.bind,
        pure, Except.pure] at hp1
    | some f =>
    cases hW : wisePixScaleTable f with
    | none =>
      simp [uncertainty_parts, hE, hG, hR, hfi, hW, lookupDictF, getField,
        shotNoiseSurveys, containsStr, containsSub, bind, Except.bind,
        pure, Except.pure] at hp1
    | some sratio =>
    cases hZ : header.MAGZPUNC with
    | none =>
      simp [uncertainty_parts, hE, hG, hR, hfi, hW, hZ, lookupDictF, getField,
        shotNoiseSurveys, containsStr, containsSub, bind, Except.bind,
        pure, Except.pure] at hp1
    | some zpu =>
    simp [uncertainty_parts, hE, hG, hR, hfi, hW, hZ, lookupDictF, getField,
        shotNoiseSurveys, containsStr, containsSub, bind, Except.bind,
        pure, Except.pure] at hp1 hp2
    obtain ⟨hm₁, hfl₁⟩ := hp1
    obtain ⟨hm₂, hfl₂⟩ := hp2
    subst hm₁
    subst hfl₁
    subst hm₂
    subst hfl₂
    exact convAbs_mono _ _ _ (Real.sqrt_nonneg _)
      (wise_mag_mono _ _ _ _ _ _
        (mul_nonneg (sq_nonneg _) (mul_nonneg hap (sq_nonneg _)))
        (mul_nonneg (div_nonneg (sq_nonneg _) hap) (sq_nonneg _))
        (sq_nonneg _) h0 h12)
  · -- unWISE
    cases hE : get_image_exptime cfg header "unWISE" with
    | error err => simp [uncertainty_parts, hE, bind, Except.bind] at hp1
    | ok t =>
    cases hG : get_image_gain cfg header "unWISE" with
    | error err =>
      simp [uncertainty_parts, hE, hG, bind, Except.bind] at hp1
    | ok g =>
    cases hR : get_image_readnoise cfg header "unWISE" with
    | error err =>
      simp [uncertainty_parts, hE, hG, hR, bind, Except.bind] at hp1
    | ok rn =>
    cases hfi : filt with
    | none =>
      simp [uncertainty_parts, hE, hG, hR, hfi, lookupDictF, getField,
        shotNoiseSurveys, containsStr, containsSub, bind, Except.bind,
        pure, Except.pure] at hp1
    | some f =>
    cases hW : wisePixScaleTable f with
    | none =>
      simp [uncertainty_parts, hE, hG, hR, hfi, hW, lookupDictF, getField,
        shotNoiseSurveys, containsStr, containsSub, bind, Except.bind,
        pure, Except.pure] at hp1
    | some sratio =>
    cases hZ : unwiseZpUncTable f with
    | none =>
      simp [uncertainty_parts, hE, hG, hR, hfi, hW, hZ, lookupDictF, getField,
        shotNoiseSurveys, containsStr, containsSub, bind, Except.bind,
        pure, Except.pure] at hp1
    | some zpu =>
    simp [uncertainty_parts, hE, hG, hR, hfi, hW, hZ, lookupDictF, getField,
        shotNoiseSurveys, containsStr, containsSub, bind, Except.bind,
        pure, Except.pure] at hp1 hp2
    obtain ⟨hm₁, hfl₁⟩ := hp1
    obtain ⟨hm₂, hfl₂⟩ := hp2
    subst hm₁
    subst hfl₁
    subst hm₂
    subst hfl₂
    exact convAbs_mono _ _ _ (Real.sqrt_nonneg _)
      (wise_mag_mono _ _ _ _ _ _
        (mul_nonneg (sq_nonneg _) (mul_nonneg hap (sq_nonneg _)))
        (mul_nonneg (div_nonneg (sq_nonneg _) hap) (sq_nonneg _))
        (sq_nonneg _) h0 h12)
  · -- LegacySurvey
    cases hE : get_image_exptime cfg header "LegacySurvey" with
    | error err => simp [uncertainty_parts, hE, bind, Except.bind] at hp1
    | ok t =>
    cases hG : get_image_gain cfg header "LegacySurvey" with
    | error err =>
      simp [uncertainty_parts, hE, hG, bind, Except.bind] at hp1
    | ok g =>
    cases hR : get_image_readnoise cfg header "LegacySurvey" with
    | error err =>
      simp [uncertainty_parts, hE, hG, hR, bind, Except.bind] at hp1
    | ok rn =>
    cases hfi : filt with
    | none =>
      simp [uncertainty_parts, hE, hG, hR, hfi, lookupDictF, getField,
        shotNoiseSurveys, containsStr, containsSub, bind, Except.bind,
        pure, Except.pure] at hp1
    | some f =>
    cases hLU : legacyUncTable f with
    | none =>
      simp [uncertainty_parts, hE, hG, hR, hfi, hLU, lookupDictF, getField,
        shotNoiseSurveys, containsStr, containsSub, bind, Except.bind,
        pure, Except.pure] at hp1
    | some lu =>
    simp [uncertainty_parts, hE, hG, hR, hfi, hLU, lookupDictF, getField,
        shotNoiseSurveys, containsStr, containsSub, bind, Except.bind,
        pure, Except.pure] at hp1 hp2
    obtain ⟨hm₁, hfl₁⟩ := hp1
    obtain ⟨hm₂, hfl₂⟩ := hp2
    subst hm₁
    subst hfl₁
    subst hm₂
    subst hfl₂
    exact convAbs_mono _ _ _ (Real.sqrt_nonneg _)
      (sqrt_quad_mono2 _ _ _ _ (base_sq_mono flux e₁ e₂ hflux h0 h12))
  · -- Spitzer
    cases hE : get_image_exptime cfg header "Spitzer" with
    | error err => simp [uncertainty_parts, hE, bind, Except.bind] at hp1
    | ok t =>
    cases hG : get_image_gain cfg header "Spitzer" with
    | error err =>
      simp [uncertainty_parts, hE, hG, bind, Except.bind] at hp1
    | ok g =>
    cases hR : get_image_readnoise cfg header "Spitzer" with
    | error err =>
      simp [uncertainty_parts, hE, hG, hR, bind, Except.bind] at hp1
    | ok rn =>
    cases hEF : header.EFCONV with
    | none =>
      simp [uncertainty_parts, hE, hG, hR, hEF, lookupDictF, getField,
        shotNoiseSurveys, containsStr, containsSub, bind, Except.bind,
        pure, Except.pure] at hp1
    | some ef =>
    simp [uncertainty_parts, hE, hG, hR, hEF, lookupDictF, getField,
        shotNoiseSurveys, containsStr, containsSub, bind, Except.bind,
        pure, Except.pure] at hp1 hp2
    obtain ⟨hm₁, hfl₁⟩ := hp1
    obtain ⟨hm₂, hfl₂⟩ := hp2
    subst hm₁
    subst hfl₁
    subst hm₂
    subst hfl₂
    exact convAbs_mono _ _ _ (Real.sqrt_nonneg _)
      (sqrt_quad_mono1 _ _ _ (base_sq_mono flux e₁ e₂ hflux h0 h12))
  · -- VISTA
    cases hE : get_image_exptime cfg header "VISTA" with
    | error err => simp [uncertainty_parts, hE, bind, Except.bind] at hp1
    | ok t =>
    cases hG : get_image_gain cfg header "VISTA" with
    | error err =>
      simp [uncertainty_parts, hE, hG, bind, Except.bind] at hp1
    | ok g =>
    cases hR : get_image_readnoise cfg header "VISTA" with
    | error err =>
      simp [uncertainty_parts, hE, hG, hR, bind, Except.bind] at hp1
    | ok rn =>
    cases hZ : header.MAGZRR with
    | none =>
      simp [uncertainty_parts, hE, hG, hR, hZ, lookupDictF, getField,
        shotNoiseSurveys, containsStr, containsSub, bind, Except.bind,
        pure, Except.pure] at hp1
    | some zpu =>
    simp [uncertainty_parts, hE, hG, hR, hZ, lookupDictF, getField,
        shotNoiseSurveys, containsStr, containsSub, bind, Except.bind,
        pure, Except.pure] at hp1 hp2
    obtain ⟨hm₁, hfl₁⟩ := hp1
    obtain ⟨hm₂, hfl₂⟩ := hp2
    subst hm₁
    subst hfl₁
    subst hm₂
    subst hfl₂
    exact convAbs_mono _ _ _ (Real.sqrt_nonneg _)
      (sqrt_quad_mono2 _ _ _ _ (base_sq_mono flux e₁ e₂ hflux h0 h12))
  · -- HST
    cases hE : get_image_exptime cfg header "HST" with
    | error err => simp [uncertainty_parts, hE, bind, Except.bind] at hp1
    | ok t =>
    cases hG : get_image_gain cfg header "HST" with
    | error err =>
      simp [uncertainty_parts, hE, hG, bind, Except.bind] at hp1
    | ok g =>
    cases hR : get_image_readnoise cfg header "HST" with
    | error err =>
      simp [uncertainty_parts, hE, hG, hR, bind, Except.bind] at hp1
    | ok rn =>
    cases hH : get_HST_err errTable filt header with
    | error err =>
      simp [uncertainty_parts, hE, hG, hR, hH, lookupDictF, getField,
        shotNoiseSurveys, containsStr, containsSub, bind, Except.bind,
        pure, Except.pure] at hp1
    | ok zpu =>
    simp [uncertainty_parts, hE, hG, hR, hH, lookupDictF, getField,
        shotNoiseSurveys, containsStr, containsSub, bind, Except.bind,
        pure, Except.pure] at hp1 hp2
    obtain ⟨hm₁, hfl₁⟩ := hp1
    obtain ⟨hm₂, hfl₂⟩ := hp2
    subst hm₁
    subst hfl₁
    subst hm₂
    subst hfl₂
    exact convAbs_mono _ _ _ (Real.sqrt_nonneg _)
      (sqrt_quad_mono1 _ _ _ (base_sq_mono flux e₁ e₂ hflux h0 h12))
  · -- SkyMapper
    cases hE : get_image_exptime cfg header "SkyMapper" with
    | error err => simp [uncertainty_parts, hE, bind, Except.bind] at hp1
    | ok t =>
    cases hG : get_image_gain cfg header "SkyMapper" with
    | error err =>
      simp [uncertainty_parts, hE, hG, bind, Except.bind] at hp1
    | ok g =>
    cases hR : get_image_readnoise cfg header "SkyMapper" with
    | error err =>
      simp [uncertainty_parts, hE, hG, hR, bind, Except.bind] at hp1
    | ok rn =>
    cases hZ : header.ZPTERR with
    | none =>
      simp [uncertainty_parts, hE, hG, hR, hZ, lookupDictF, getField,
        shotNoiseSurveys, containsStr, containsSub, bind, Except.bind,
        pure, Except.pure] at hp1
    | some zpu =>
    simp [uncertainty_parts, hE, hG, hR, hZ, lookupDictF, getField,
        shotNoiseSurveys, containsStr, containsSub, bind, Except.bind,
        pure, Except.pure] at hp1 hp2
    obtain ⟨hm₁, hfl₁⟩ := hp1
    obtain ⟨hm₂, hfl₂⟩ := hp2
    subst hm₁
    subst hfl₁
    subst hm₂
    subst hfl₂
    exact convAbs_mono _ _ _ (Real.sqrt_nonneg _)
      (sqrt_quad_mono2 _ _ _ _ (base_sq_mono flux e₁ e₂ hflux h0 h12))
  · -- SPLUS
    cases hE : get_image_exptime cfg header "SPLUS" with
    | error err => simp [uncertainty_parts, hE, bind, Except.bind] at hp1
    | ok t =>
    cases hG : get_image_gain cfg header "SPLUS" with
    | error err =>
      simp [uncertainty_parts, hE, hG, bind, Except.bind] at hp1
    | ok g =>
    cases hR : get_image_readnoise cfg header "SPLUS" with
    | error err =>
      simp [uncertainty_parts, hE, hG, hR, bind, Except.bind] at hp1
    | ok rn =>
    simp [uncertainty_parts, hE, hG, hR, lookupDictF, getField,
        shotNoiseSurveys, containsStr, containsSub, bind, Except.bind,
        pure, Except.pure] at hp1 hp2
    obtain ⟨hm₁, hfl₁⟩ := hp1
    obtain ⟨hm₂, hfl₂⟩ := hp2
    subst hm₁
    subst hfl₁
    subst hm₂
    subst hfl₂
    exact convAbs_mono _ _ _ (Real.sqrt_nonneg _)
      (sqrt_quad_mono2 _ _ _ _ (base_sq_mono flux e₁ e₂ hflux h0 h12))
  · -- UKIDSS
    cases hE : get_image_exptime cfg header "UKIDSS" with
    | error err => simp [uncertainty_parts, hE, bind, Except.bind] at hp1
    | ok t =>
    cases hG : get_image_gain cfg header "UKIDSS" with
    | error err =>
      simp [uncertainty_parts, hE, hG, bind, Except.bind] at hp1
    | ok g =>
    cases hR : get_image_readnoise cfg header "UKIDSS" with
    | error err =>
      simp [uncertainty_parts, hE, hG, hR, bind, Except.bind] at hp1
    | ok rn =>
    cases hZ : header.MAGZRR with
    | none =>
      simp [uncertainty_parts, hE, hG, hR, hZ, lookupDictF, getField,
        shotNoiseSurveys, containsStr, containsSub, bind, Except.bind,
        pure, Except.pure] at hp1
    | some zpu =>
    simp [uncertainty_parts, hE, hG, hR, hZ, lookupDictF, getField,
        shotNoiseSurveys, containsStr, containsSub, bind, Except.bind,
        pure, Except.pure] at hp1 hp2
    obtain ⟨hm₁, hfl₁⟩ := hp1
    obtain ⟨hm₂, hfl₂⟩ := hp2
    subst hm₁
    subst hfl₁
    subst hm₂
    subst hfl₂
    exact convAbs_mono _ _ _ (Real.sqrt_nonneg _)
      (sqrt_quad_mono2 _ _ _ _ (base_sq_mono flux e₁ e₂ hflux h0 h12))


/-- Witness for C5 at a concrete 2MASS input. -/
theorem uncertainty_monotone_witness :
    ∃ v₁ v₂, uncertainty_calculation demoConfig noErrTable 60 1 "2MASS"
        (some "J") 0 emptyHeader 0 = .ok v₁ ∧
      uncertainty_calculation demoConfig noErrTable 60 2 "2MASS" (some "J") 0
        emptyHeader 0 = .ok v₂ ∧ v₁ ≤ v₂ := by
  obtain ⟨v₁, h1⟩ : ∃ v, uncertainty_calculation demoConfig noErrTable 60 1
      "2MASS" (some "J") 0 emptyHeader 0 = .ok v := ⟨_, rfl⟩
  obtain ⟨v₂, h2⟩ : ∃ v, uncertainty_calculation demoConfig noErrTable 60 2
      "2MASS" (some "J") 0 emptyHeader 0 = .ok v := ⟨_, rfl⟩
  exact ⟨v₁, v₂, h1, h2, uncertainty_monotone_in_flux_err demoConfig
    noErrTable 60 1 2 "2MASS" (some "J") 0 emptyHeader 0 v₁ v₂
    (by simp [supportedSurveys]) (by norm_num) (by norm_num) (by norm_num)
    (by norm_num) h1 h2⟩

end HostPhot
